import Mathlib

/-
  Shallow embedding of the HAML parser (hypi-universe/haml).

  Sources embedded here:
  - src/lib.rs: Location, CoreApi, DatabaseType, ConstraintViolationAction,
    TableConstraintType, ImplicitDockerStepPosition, DockerConnectionInfo,
    DockerStepProvider and the functions parse_docker_image and the two FromStr
    implementations.
  - src/haml_parser.rs: the per-element data records, their set_attr,
    append_child, set_str_body and validate handlers, the element factory
    new_node, and the streaming tree builder of ParsedDocument::from_str.

  Modelling conventions:
  - Rust machine integers (u16, u64) are modelled as Nat; the only numeric
    parse in scope is the u16 parse, modelled with its 0..65535 bound.
  - Rc of RefCell pointers are modelled as indices (Ref) into an explicit
    store (arena), threaded through the builder exactly where the Rust code
    mutates shared nodes.
  - The XML tokenizer (crate xml-rs) is an external collaborator: a file is
    represented by the event stream the tokenizer would deliver for it, with
    the zero-based positions the tokenizer reports.
  - The file-resolution collaborator (Vfs and read_schema_file) is a function
    from logical file name to an optional event stream.
  - String operations are modelled structurally over the character list of a
    String (so that every definition reduces inside the kernel).  All the
    separators split on by the Rust code (a colon or an at-sign) are single
    ASCII characters, so Rust str::split and String::splitOn coincide with
    the character-level split used here; byte indices coincide with character
    indices for these ASCII separators.
-/

namespace Haml

/-- Decidable equality for Except values, used to evaluate the embedded
parsers at concrete inputs. -/
instance {e a : Type} [DecidableEq e] [DecidableEq a] : DecidableEq (Except e a) := fun x y =>
  match x, y with
  | .ok v, .ok w =>
    if h : v = w then isTrue (by rw [h]) else isFalse (by intro hc; cases hc; exact h rfl)
  | .error v, .error w =>
    if h : v = w then isTrue (by rw [h]) else isFalse (by intro hc; cases hc; exact h rfl)
  | .ok _, .error _ => isFalse (by intro hc; cases hc)
  | .error _, .ok _ => isFalse (by intro hc; cases hc)

/-- Rust str::to_lowercase (ASCII range, which is all the source compares). -/
def lowerStr (s : String) : String := String.mk (s.data.map Char.toLower)

/-- Rust str::contains for a single-character pattern. -/
def containsCh (s : String) (c : Char) : Bool := s.data.contains c

/-- Worker for the character-level split: accumulates the current piece in
reverse, emitting a piece at each separator, like Rust str::split. -/
def splitChAux (sep : Char) : List Char → List Char → List (List Char)
  | [], acc => [acc.reverse]
  | c :: cs, acc =>
    if c = sep then acc.reverse :: splitChAux sep cs [] else splitChAux sep cs (c :: acc)

/-- Rust str::split on a single-character separator (also the behaviour of
String::splitOn for these separators): always yields at least one piece. -/
def splitCh (s : String) (sep : Char) : List String :=
  (splitChAux sep s.data []).map String.mk

/-- Rust str::starts_with. -/
def startsWithStr (s p : String) : Bool := p.data.isPrefixOf s.data

/-- Rust str::ends_with. -/
def endsWithStr (s p : String) : Bool := p.data.isSuffixOf s.data

/-- Drop the first n characters (Rust byte slicing past an ASCII prefix). -/
def dropStr (s : String) (n : Nat) : String := String.mk (s.data.drop n)

/-- Drop the last n characters (Rust byte slicing before an ASCII suffix). -/
def dropRightStr (s : String) (n : Nat) : String :=
  String.mk (s.data.take (s.data.length - n))

/-- Rust Iterator::take_while over the characters of a string. -/
def takeWhileStr (s : String) (p : Char → Bool) : String :=
  String.mk (s.data.takeWhile p)

/-- Rust str::strip_prefix: remove the prefix when present, else none. -/
def stripPre (s p : String) : Option String :=
  if startsWithStr s p then some (dropStr s p.data.length) else none

/-- Rust str::strip_suffix: remove the suffix when present, else none. -/
def stripSuf (s p : String) : Option String :=
  if endsWithStr s p then some (dropRightStr s p.data.length) else none

/-- Rust str::trim().is_empty(): the trimmed string is empty exactly when
every character is whitespace. -/
def trimIsEmpty (s : String) : Bool := s.data.all fun c => c.isWhitespace

/-- Decimal digits accumulated into a Nat, for the u16 parse. -/
def digitsToNat : List Char → Option Nat
  | [] => none
  | cs => cs.foldl (fun acc c => match acc with
      | none => none
      | some n => if c.isDigit then some (n * 10 + (c.toNat - 48)) else none) (some 0)

/-- Rust str::parse for u16: optional plus sign, decimal digits, bounded by
65535; anything else fails. -/
def parseU16 (s : String) : Option Nat :=
  let body := match s.data with
    | '+' :: rest => rest
    | l => l
  match digitsToNat body with
  | some n => if n < 65536 then some n else none
  | none => none

/-- Location record from src/lib.rs: file name, line, column and the ordinal
index among siblings recorded by the tree builder. -/
structure Location where
  file_name : String := ""
  line : Nat := 0
  column : Nat := 0
  child_index : Nat := 0
deriving DecidableEq, Repr

/-- CoreApi enumeration from src/lib.rs. -/
inductive CoreApi where
  | register
  | loginByEmail
  | loginByUsername
  | oauth
  | passwordResetTrigger
  | passwordReset
  | magicLink
  | twoFactorAuthEmail
  | twoFactorAuthSms
  | twoFactorStep2
  | twoFactorTotp
  | verifyAccount
deriving DecidableEq, Repr

/-- DatabaseType enumeration from src/lib.rs. -/
inductive DatabaseType where
  | mekaDb
  | postgres
  | mySQL
  | mariaDB
  | oracle
  | msSql
deriving DecidableEq, Repr

/-- DatabaseType::from in src/lib.rs: case-insensitive lookup. -/
def DatabaseType.fromString (v : String) : Option DatabaseType :=
  match lowerStr v with
  | "mekadb" => some DatabaseType.mekaDb
  | "postgres" => some DatabaseType.postgres
  | "mysql" => some DatabaseType.mySQL
  | "mariadb" => some DatabaseType.mariaDB
  | "oracle" => some DatabaseType.oracle
  | "mssql" => some DatabaseType.msSql
  | _ => none

/-- ConstraintViolationAction from src/lib.rs. -/
inductive ConstraintViolationAction where
  | cascade
  | restrict
deriving DecidableEq, Repr

/-- TableConstraintType from src/lib.rs: a unique constraint or a foreign key
carrying optional on_delete and on_update actions. -/
inductive TableConstraintType where
  | foreignKey (on_delete : Option ConstraintViolationAction)
      (on_update : Option ConstraintViolationAction)
  | unique
deriving DecidableEq, Repr

/-- ImplicitDockerStepPosition from src/lib.rs. -/
inductive ImplicitDockerStepPosition where
  | first
  | each
  | last
deriving DecidableEq, Repr

/-- FromStr for ImplicitDockerStepPosition in src/lib.rs.  Note that the
source maps the input "last" to the Each variant, exactly as written there. -/
def ImplicitDockerStepPosition.from_str (input : String) :
    Except String ImplicitDockerStepPosition :=
  match input with
  | "first" => .ok ImplicitDockerStepPosition.first
  | "each" => .ok ImplicitDockerStepPosition.each
  | "last" => .ok ImplicitDockerStepPosition.each
  | _ => .error ("Invalid position " ++ input)

/-- DockerConnectionInfo from src/lib.rs. -/
structure DockerConnectionInfo where
  start_pos : Location := {}
  end_pos : Location := {}
  username : Option String := none
  password : Option String := none
  image : String := ""
  tag : Option String := none
deriving DecidableEq, Repr

/-- DockerStepProvider from src/lib.rs. -/
inductive DockerStepProvider where
  | custom (name : String) (path : String)
  | dockerfile (path : String)
  | dockerImage (info : DockerConnectionInfo)
  | remote (host : String) (port : Option String)
deriving DecidableEq, Repr

/-- The error message used by every failure path of parse_docker_image. -/
def atFormMsg : String :=
  "Provider with at-sign must be in the form user:pass then at then image:tag"

/-- parse_docker_image from src/lib.rs.  When the input contains an at-sign,
the text left of the first at-sign must split on a colon into user and pass,
the image is the remaining segment up to its first colon, and the tag is the
last colon-separated piece of that segment (Rust split always yields at least
one piece, so the tag is always present in this branch).  Without an at-sign
the image is everything up to the first colon and the tag is the last piece
when the input has a colon, else absent. -/
def parse_docker_image (input : String) : Except String DockerConnectionInfo :=
  if containsCh input '@' then
    match splitCh input '@' with
    | user_and_pass :: rest =>
      match splitCh user_and_pass ':' with
      | user :: pass :: _ =>
        match rest with
        | image_and_tag :: _ =>
          .ok { start_pos := {}, end_pos := {},
                username := some user, password := some pass,
                image := takeWhileStr image_and_tag (fun v => v ≠ ':'),
                tag := (splitCh image_and_tag ':').getLast? }
        | [] => .error atFormMsg
      | _ => .error atFormMsg
    | [] => .error atFormMsg
  else
    .ok { start_pos := {}, end_pos := {},
          username := none, password := none,
          image := if containsCh input ':' then takeWhileStr input (fun v => v ≠ ':') else input,
          tag := if containsCh input ':' then (splitCh input ':').getLast? else none }

/-- The docker image grammar exactly as the spec words it, including the
clause that the tag is absent whenever the remaining segment has no colon:
used to compare the specified behaviour against parse_docker_image. -/
def spec_docker_image_claimed (input : String) : Except String DockerConnectionInfo :=
  if containsCh input '@' then
    match splitCh input '@' with
    | left :: seg :: _ =>
      match splitCh left ':' with
      | user :: pass :: _ =>
        .ok { start_pos := {}, end_pos := {},
              username := some user, password := some pass,
              image := takeWhileStr seg (fun v => v ≠ ':'),
              tag := if containsCh seg ':' then (splitCh seg ':').getLast? else none }
      | _ => .error atFormMsg
    | _ => .error atFormMsg
  else
    .ok { start_pos := {}, end_pos := {},
          username := none, password := none,
          image := if containsCh input ':' then takeWhileStr input (fun v => v ≠ ':') else input,
          tag := if containsCh input ':' then (splitCh input ':').getLast? else none }

/-- The amended docker image grammar: identical to the spec wording except
that, when an at-sign is present, the tag is the last colon-separated piece of
the remaining segment even when that segment has no colon (it then equals the
whole segment, i.e. the image). -/
def spec_docker_image_amended (input : String) : Except String DockerConnectionInfo :=
  if containsCh input '@' then
    match splitCh input '@' with
    | left :: seg :: _ =>
      match splitCh left ':' with
      | user :: pass :: _ =>
        .ok { start_pos := {}, end_pos := {},
              username := some user, password := some pass,
              image := takeWhileStr seg (fun v => v ≠ ':'),
              tag := (splitCh seg ':').getLast? }
      | _ => .error atFormMsg
    | _ => .error atFormMsg
  else
    .ok { start_pos := {}, end_pos := {},
          username := none, password := none,
          image := if containsCh input ':' then takeWhileStr input (fun v => v ≠ ':') else input,
          tag := if containsCh input ':' then (splitCh input ':').getLast? else none }

/-- FromStr for DockerStepProvider in src/lib.rs: lowercases the whole input,
then dispatches on the dockerfile suffix, the hypi and docker and remote
prefixes, and finally the custom name:path form.  As in the source, the
strip_suffix fallback inside the dockerfile arm falls back to the value
before the leading slash was stripped. -/
def DockerStepProvider.from_str (input0 : String) : Except String DockerStepProvider :=
  let input := lowerStr input0
  if endsWithStr input "dockerfile" then
    match stripSuf ((stripPre input "file:").getD "") "dockerfile" with
    | some v =>
      let a := (stripPre v "/").getD v
      .ok (.dockerfile ((stripSuf a "/").getD v))
    | none => .error "Unable to parse plugin provider as a Dockerfile source"
  else if startsWithStr input "hypi:" then
    match parse_docker_image (dropStr input 5) with
    | .ok info => .ok (.dockerImage info)
    | .error e => .error e
  else if startsWithStr input "remote:" then
    let rem := dropStr input 7
    if containsCh rem ':' then
      .ok (.remote (takeWhileStr rem (fun c => c ≠ ':'))
        (some (dropStr rem ((takeWhileStr rem (fun c => c ≠ ':')).data.length + 1))))
    else
      .ok (.remote rem none)
  else if startsWithStr input "docker:" then
    match parse_docker_image (dropStr input 7) with
    | .ok info => .ok (.dockerImage info)
    | .error e => .error e
  else if containsCh input ':' then
    .ok (.custom (takeWhileStr input (fun c => c ≠ ':')) ((splitCh input ':').getLastD input))
  else
    .error ("Unsupported step provider " ++ input)

/-
  The error taxonomy of src/haml_parser.rs: one value per lazy static
  ErrorCode, plus the ParseErr record and the HamlError sum.
-/

/-- The categorized error codes (HAML_CODE_XXX statics). -/
inductive ErrCode where
  | unknownAttr
  | invalidProvider
  | invalidStepLoc
  | missingImport
  | unknownWellKnownType
  | unsupportedChild
  | cannotRepeat
  | unknownElement
  | xmlSyntax
  | xmlIo
  | xmlUtf8
  | xmlEof
  | noRoot
deriving DecidableEq, Repr

/-- ParseErr from src/haml_parser.rs. -/
structure ParseErr where
  file : String
  line : Nat
  column : Nat
  code : ErrCode
  element : String
  message : String
deriving DecidableEq, Repr

/-- HamlError from src/haml_parser.rs: a structural parse error or a
semantic error with message, code and optional context map. -/
inductive HamlError where
  | parseErr (e : ParseErr)
  | semantics (msg : String) (code : ErrCode) (ctx : Option (List (String × String)))
deriving DecidableEq, Repr

/-- ColumnType from src/haml_parser.rs. -/
inductive ColumnType where
  | text
  | int
  | bigint
  | float
  | double
  | timestamp
  | bool
  | bytea
deriving DecidableEq, Repr

/-- ColumnDefault from src/haml_parser.rs. -/
inductive ColumnDefault where
  | uniqueSqid
  | uniqueUlid
  | uniqueSnowflake
deriving DecidableEq, Repr

/-- ScriptType from src/haml_parser.rs (only JavaScript exists). -/
inductive ScriptType where
  | javaScript
deriving DecidableEq, Repr

/-- WellKnownType from src/haml_parser.rs. -/
inductive WellKnownType where
  | account
  | file
  | permission
  | role
deriving DecidableEq, Repr

/-- Modelled from the spec: the HTTP method enumeration and its parser live
in the external rapid_utils crate (not under src/); the spec says supported
HTTP methods are validated by a delegated enum parser.  Modelled as the
standard methods with a case-insensitive lookup; the default used by
ParsedEndpoint::default is Get. -/
inductive HttpMethod where
  | get
  | post
  | put
  | delete
  | patch
  | head
  | options
deriving DecidableEq, Repr

/-- Modelled from the spec: delegated case-insensitive HTTP method lookup. -/
def HttpMethod.fromString (v : String) : Option HttpMethod :=
  match lowerStr v with
  | "get" => some .get
  | "post" => some .post
  | "put" => some .put
  | "delete" => some .delete
  | "patch" => some .patch
  | "head" => some .head
  | "options" => some .options
  | _ => none

/-- Node pointers (Rc of RefCell) are modelled as indices into a store. -/
abbrev Ref := Nat

/-- ParsedDocument record (fields hold store indices where the source holds
NodePtr values). -/
structure ParsedDocument where
  start_pos : Location := {}
  end_pos : Location := {}
  meta : Ref
  apis : Ref
  databases : List Ref := []
  env : List Ref := []
  step_builders : List Ref := []
deriving DecidableEq, Repr

/-- ParsedTable record. -/
structure ParsedTable where
  start_pos : Location := {}
  end_pos : Location := {}
  columns : List Ref := []
  constraints : List Ref := []
  name : String := ""
  hypi : Option Ref := none
deriving DecidableEq, Repr

/-- ParsedColumn record, with the defaults assigned by new_node. -/
structure ParsedColumn where
  start_pos : Location := {}
  end_pos : Location := {}
  name : String := ""
  typ : ColumnType := .text
  nullable : Bool := true
  unique : Bool := false
  default : Option ColumnDefault := none
  primary_key : Bool := false
  pipeline : Option Ref := none
deriving DecidableEq, Repr

/-- ParsedColumnPipeline record. -/
structure ParsedColumnPipeline where
  start_pos : Location := {}
  end_pos : Location := {}
  args : Option Ref := none
  write : Option Ref := none
  read : Option Ref := none
deriving DecidableEq, Repr

/-- ParsedColumnPipelineArgs record. -/
structure ParsedColumnPipelineArgs where
  start_pos : Location := {}
  end_pos : Location := {}
  value : String := ""
deriving DecidableEq, Repr

/-- ParsedColumnPipelineWrite record. -/
structure ParsedColumnPipelineWrite where
  start_pos : Location := {}
  end_pos : Location := {}
  value : String := ""
deriving DecidableEq, Repr

/-- ParsedColumnPipelineRead record. -/
structure ParsedColumnPipelineRead where
  start_pos : Location := {}
  end_pos : Location := {}
  value : String := ""
deriving DecidableEq, Repr

/-- ParsedHypi record. -/
structure ParsedHypi where
  start_pos : Location := {}
  end_pos : Location := {}
  well_known : Option WellKnownType := none
  mappings : List Ref := []
deriving DecidableEq, Repr

/-- ParsedMapping record. -/
structure ParsedMapping where
  start_pos : Location := {}
  end_pos : Location := {}
  from_field : String := ""
  to_field : Option String := none
  typ : Option ColumnType := none
  children : List Ref := []
deriving DecidableEq, Repr

/-- ParsedGlobalOptions record. -/
structure ParsedGlobalOptions where
  start_pos : Location := {}
  end_pos : Location := {}
  core_apis : List CoreApi := []
  explicitly_enabled_crud_tables : List String := []
  implicit_steps : List Ref := []
deriving DecidableEq, Repr

/-- ParsedRest record (base defaults to a slash in new_node). -/
structure ParsedRest where
  start_pos : Location := {}
  end_pos : Location := {}
  base : String := "/"
  endpoints : List Ref := []
deriving DecidableEq, Repr

/-- ParsedEndpoint record with the derived Default values. -/
structure ParsedEndpoint where
  start_pos : Location := {}
  end_pos : Location := {}
  method : HttpMethod := .get
  path : Option String := none
  name : Option String := none
  public : Option Bool := none
  accepts : Option String := none
  produces : Option String := none
  pipeline : Option String := none
  responses : List Ref := []
  websockets : List Ref := []
deriving DecidableEq, Repr

/-- ParsedEndpointResponse record. -/
structure ParsedEndpointResponse where
  start_pos : Location := {}
  end_pos : Location := {}
  status : Nat := 0
  whenCond : Option String := none
  yield_expr : Option String := none
  body : Option String := none
  mappings : List Ref := []
deriving DecidableEq, Repr

/-- ParsedEndpointSql record. -/
structure ParsedEndpointSql where
  start_pos : Location := {}
  end_pos : Location := {}
  sql : String := ""
  db_name : Option String := none
  label : Option String := none
  mappings : List Ref := []
  is_async : Bool := false
deriving DecidableEq, Repr

/-- ParsedEndpointFn record. -/
structure ParsedEndpointFn where
  start_pos : Location := {}
  end_pos : Location := {}
  name : String := ""
  label : Option String := none
  version : String := ""
  mappings : List Ref := []
  is_async : Bool := false
deriving DecidableEq, Repr

/-- ParsedEndpointWebsocket record (base defaults to a slash). -/
structure ParsedEndpointWebsocket where
  start_pos : Location := {}
  end_pos : Location := {}
  base : String := "/"
  sources : List String := []
deriving DecidableEq, Repr

/-- ParsedEndpointScript record. -/
structure ParsedEndpointScript where
  start_pos : Location := {}
  end_pos : Location := {}
  file : String := ""
  label : Option String := none
  typ : ScriptType := .javaScript
  is_async : Bool := false
deriving DecidableEq, Repr

/-- ParsedCall record. -/
structure ParsedCall where
  start_pos : Location := {}
  end_pos : Location := {}
  target : String := ""
  label : Option String := none
  mappings : List Ref := []
  is_async : Bool := false
deriving DecidableEq, Repr

/-- ParsedGraphQL record (enable_subscriptions defaults to true). -/
structure ParsedGraphQL where
  start_pos : Location := {}
  end_pos : Location := {}
  base : String := ""
  from_field : String := ""
  enable_subscriptions : Bool := true
deriving DecidableEq, Repr

/-- ParsedJob record. -/
structure ParsedJob where
  start_pos : Location := {}
  end_pos : Location := {}
  name : String := ""
  pipeline : String := ""
  start : String := ""
  endTime : String := ""
  interval : String := ""
  interval_frequency : String := ""
  enabled : Bool := false
  repeats : Bool := false
deriving DecidableEq, Repr

/-- The heterogeneous pipeline step list entries (ParsedStep). -/
inductive ParsedStep where
  | sql (r : Ref)
  | fnStep (r : Ref)
  | call (r : Ref)
  | script (r : Ref)
  | pipeline (r : Ref)
deriving DecidableEq, Repr

/-- ParsedPipeline record. -/
structure ParsedPipeline where
  start_pos : Location := {}
  end_pos : Location := {}
  name : String := ""
  label : Option String := none
  steps : List ParsedStep := []
  docker_steps : List Ref := []
  is_async : Bool := false
deriving DecidableEq, Repr

/-- ParsedEnv record. -/
structure ParsedEnv where
  start_pos : Location := {}
  end_pos : Location := {}
  name : String := ""
  value : String := ""
deriving DecidableEq, Repr

/-- ParsedDb record (typ defaults to MekaDb in new_node). -/
structure ParsedDb where
  start_pos : Location := {}
  end_pos : Location := {}
  label : String := ""
  db_name : String := ""
  host : String := ""
  port : Option Nat := none
  typ : DatabaseType := .mekaDb
  username : String := ""
  password : String := ""
  options : Option String := none
  schemas : List Ref := []
deriving DecidableEq, Repr

/-- ParsedSchema record: the tables field is a shared pointer to a tables
cell (a ParsedTables node), freshly allocated empty by new_node and
replaceable wholesale by a tables child. -/
structure ParsedSchema where
  start_pos : Location := {}
  end_pos : Location := {}
  name : String := ""
  tables : Ref := 0
deriving DecidableEq, Repr

/-- ParsedConstraint record: a fresh constraint starts with the Unique type. -/
structure ParsedConstraint where
  start_pos : Location := {}
  end_pos : Location := {}
  name : String := ""
  columns : List String := []
  typ : TableConstraintType := .unique
  mappings : List Ref := []
deriving DecidableEq, Repr

/-- ParsedMeta record. -/
structure ParsedMeta where
  start_pos : Location := {}
  end_pos : Location := {}
  key_value_pairs : List Ref := []
deriving DecidableEq, Repr

/-- ParsedKeyValuePair record. -/
structure ParsedKeyValuePair where
  start_pos : Location := {}
  end_pos : Location := {}
  key : String := ""
  value : String := ""
deriving DecidableEq, Repr

/-- ParsedDockerStep record: both implicit positions start out None and the
provider defaults to a Dockerfile with path ".". -/
structure ParsedDockerStep where
  start_pos : Location := {}
  end_pos : Location := {}
  name : String := ""
  provider : DockerStepProvider := .dockerfile "."
  mappings : List Ref := []
  implicit_before_position : Option ImplicitDockerStepPosition := none
  implicit_after_position : Option ImplicitDockerStepPosition := none
deriving DecidableEq, Repr

/-- ParsedApis record. -/
structure ParsedApis where
  start_pos : Location := {}
  end_pos : Location := {}
  global_options : Option Ref := none
  rest : Option Ref := none
  graphql : Option Ref := none
  pipelines : List Ref := []
  jobs : List Ref := []
deriving DecidableEq, Repr

/-- ParsedHypiSchemaElement: the closed tagged union of node kinds.  The
ParsedTables variant is a bare list and the ApiCoreApi variant a bare string
in the source; both carry no Location of their own. -/
inductive ParsedHypiSchemaElement where
  | parsedDocument (d : ParsedDocument)
  | parsedTables (ts : List Ref)
  | parsedTable (t : ParsedTable)
  | column (c : ParsedColumn)
  | apis (a : ParsedApis)
  | columnPipeline (p : ParsedColumnPipeline)
  | columnPipelineArgs (a : ParsedColumnPipelineArgs)
  | columnPipelineWrite (w : ParsedColumnPipelineWrite)
  | columnPipelineRead (r : ParsedColumnPipelineRead)
  | hypi (h : ParsedHypi)
  | mapping (m : ParsedMapping)
  | apiGlobalOptions (g : ParsedGlobalOptions)
  | apiCoreApi (s : String)
  | apiRest (r : ParsedRest)
  | apiEndpoint (e : ParsedEndpoint)
  | apiEndpointResponse (r : ParsedEndpointResponse)
  | apiEndpointSql (s : ParsedEndpointSql)
  | apiEndpointScript (s : ParsedEndpointScript)
  | apiEndpointCall (c : ParsedCall)
  | apiEndpointFn (f : ParsedEndpointFn)
  | dockerStep (s : ParsedDockerStep)
  | dockerStepBuilder (i : DockerConnectionInfo)
  | apiEndpointWebsocket (w : ParsedEndpointWebsocket)
  | apiGraphQL (g : ParsedGraphQL)
  | apiJob (j : ParsedJob)
  | pipeline (p : ParsedPipeline)
  | env (e : ParsedEnv)
  | db (d : ParsedDb)
  | parsedSchema (s : ParsedSchema)
  | constraint (c : ParsedConstraint)
  | meta (m : ParsedMeta)
  | pair (p : ParsedKeyValuePair)
deriving DecidableEq, Repr

/-- The arena of allocated nodes (the Rust heap of Rc cells). -/
abbrev Store := List ParsedHypiSchemaElement

/-- Read a node from the store (indices produced by the builder are always
in range; out-of-range reads yield a junk core-api node, which no reachable
path ever produces). -/
def getNode (store : Store) (r : Ref) : ParsedHypiSchemaElement :=
  store.getD r (.apiCoreApi "")

/-- Replace a node in the store. -/
def setNode (store : Store) (r : Ref) (n : ParsedHypiSchemaElement) : Store :=
  store.set r n

/-- ParseCtx from src/haml_parser.rs: file name, one-based line and column,
the full attribute list of the current start-element, and the file-resolution
collaborator in the shape it is used (ParsedDocument::from_str applied to the
ambient Vfs, threading the store). -/
structure ParseCtx where
  file_name : String
  line_number : Nat
  column : Nat
  attributes : List (String × String)
  imp : Store → String → Except HamlError (Store × Ref)

/-- Build a ParseErr at the context position, as the repeated inline
constructions in the source do. -/
def perr (ctx : ParseCtx) (code : ErrCode) (element : String) (message : String) : HamlError :=
  .parseErr { file := ctx.file_name, line := ctx.line_number, column := ctx.column,
              code := code, element := element, message := message }

/-- The attribute names ignored everywhere (namespace noise). -/
def IGNORED_ATTRS : List String := ["xmlns", "schemaLocation"]

/-- Rust str::contains for a multi-character pattern: substring search. -/
def containsSubAux (pat : List Char) : List Char → Bool
  | [] => pat.isPrefixOf []
  | c :: cs => pat.isPrefixOf (c :: cs) || containsSubAux pat cs

/-- Whether pat occurs as a substring of s. -/
def containsSub (s pat : String) : Bool := containsSubAux pat.data s.data

/-- The list of attribute names other than the import attribute, joined with
commas, as listed in the import-combination error message. -/
def otherAttrNames (attrs : List (String × String)) : String :=
  String.intercalate "," ((attrs.filter (fun v => lowerStr v.1 != "import")).map (fun v => v.1))

/-- The import-combination error message shared by the table, endpoint and
pipeline handlers. -/
def importCombinedMsg (value : String) (attrs : List (String × String)) : String :=
  "The import attribute cannot be combined with any others. Attempting to import " ++
    value ++ " and mixing it with " ++ otherAttrNames attrs

/-- The kind-mismatch message shared by the three import splices (the source
says endpoint in all three, a copy of the endpoint arm). -/
def importNotExpectedMsg (value : String) : String :=
  "Imported file " ++ value ++ " found but it was not an endpoint as expected"

/-- parse_column_type from src/haml_parser.rs: case-insensitive column type
lookup failing with the unknown-attribute code on the column element. -/
def parse_column_type (ctx : ParseCtx) (value : String) : Except HamlError ColumnType :=
  match lowerStr value with
  | "text" => .ok .text
  | "int" => .ok .int
  | "bigint" => .ok .bigint
  | "float" => .ok .float
  | "double" => .ok .double
  | "timestamp" => .ok .timestamp
  | "boolean" => .ok .bool
  | "bytea" => .ok .bytea
  | _ => .error (perr ctx .unknownAttr "column" ("Column type does not support " ++ value ++
      ". Supported types are text,int,bigint,float,double,timestamp,bool,bytea"))

/-- ParsedDocument::set_attr: the document element rejects every attribute. -/
def ParsedDocument.set_attr (ctx : ParseCtx) (_d : ParsedDocument) (name : String)
    (_value : String) : Except HamlError ParsedDocument :=
  .error (perr ctx .unknownAttr "document" ("document does not support an attribute called " ++
    name ++ "...in fact, it does not support any attributes at all!"))

/-- ParsedTable::set_attr: lowercases the name; the import attribute must be
alone on the element (checked against the full attribute list of the context
before anything else); importing parses the named file through the
collaborator, requires a table root, and replaces the whole record with the
imported one (the source moves the imported table out of its cell, leaving a
blank table behind). -/
def ParsedTable.set_attr (ctx : ParseCtx) (store : Store) (t : ParsedTable)
    (name value : String) : Except HamlError (Store × ParsedTable) :=
  let attr_name := lowerStr name
  if attr_name = "import" ∧ ctx.attributes.length > 1 then
    .error (perr ctx .missingImport "endpoint" (importCombinedMsg value ctx.attributes))
  else
    match attr_name with
    | "import" =>
      match ctx.imp store value with
      | .ok (store2, ref) =>
        match getNode store2 ref with
        | .parsedTable tbl => .ok (setNode store2 ref (.parsedTable {}), tbl)
        | _ => .error (perr ctx .missingImport "endpoint" (importNotExpectedMsg value))
      | .error err => .error err
    | "name" => .ok (store, { t with name := value })
    | val => .error (perr ctx .unknownAttr "table"
        ("table elements do not support an attribute called " ++ val))

/-- ParsedColumn::set_attr: matches the raw attribute name (no lowercasing in
the source), coercing booleans by comparing the lowercased value with true. -/
def ParsedColumn.set_attr (ctx : ParseCtx) (c : ParsedColumn) (name value : String) :
    Except HamlError ParsedColumn :=
  match name with
  | "name" => .ok { c with name := value }
  | "primary_key" => .ok { c with primary_key := lowerStr value == "true" }
  | "nullable" => .ok { c with nullable := lowerStr value == "true" }
  | "type" =>
    match parse_column_type ctx value with
    | .ok ty => .ok { c with typ := ty }
    | .error e => .error e
  | "unique" => .ok { c with unique := lowerStr value == "true" }
  | "default" =>
    let v := lowerStr value
    if containsCh v '(' &&
        containsSub (String.mk (v.data.filter (fun ch => !(ch == ' ' || ch == '\t')))) "(sqid)" then
      .ok { c with default := some .uniqueSqid }
    else if v = "unique" then
      .ok { c with default := some .uniqueUlid }
    else
      .error (perr ctx .unknownAttr "column" ("Column type does not support " ++ v ++
        ". Supported types are text,int,bigint,float,double,timestamp,bool,bytea"))
  | val => .error (perr ctx .unknownAttr "column"
      ("Column elements do not support an attribute called " ++ val))

/-- ParsedColumnPipeline::set_attr: a column pipeline rejects every attribute. -/
def ParsedColumnPipeline.set_attr (ctx : ParseCtx) (_p : ParsedColumnPipeline)
    (name : String) (_value : String) : Except HamlError ParsedColumnPipeline :=
  .error (perr ctx .unknownAttr "pipeline"
    ("The pipeline element of a column does not support an attribute called " ++ name ++
      "...in fact, it does not support any attributes at all."))

/-- ParsedColumnPipelineArgs::set_attr: only the value attribute, raw-name
matched. -/
def ParsedColumnPipelineArgs.set_attr (ctx : ParseCtx) (a : ParsedColumnPipelineArgs)
    (name value : String) : Except HamlError ParsedColumnPipelineArgs :=
  match name with
  | "value" => .ok { a with value := value }
  | n => .error (perr ctx .unknownAttr "args"
      ("The args element of a column pipeline does not support an attribute called " ++ n ++ "."))

/-- ParsedColumnPipelineWrite::set_attr: only the value attribute, raw-name
matched. -/
def ParsedColumnPipelineWrite.set_attr (ctx : ParseCtx) (w : ParsedColumnPipelineWrite)
    (name value : String) : Except HamlError ParsedColumnPipelineWrite :=
  match name with
  | "value" => .ok { w with value := value }
  | n => .error (perr ctx .unknownAttr "write"
      ("The write element of a column pipeline does not support an attribute called " ++ n ++ "."))

/-- ParsedColumnPipelineRead::set_attr: only the value attribute, raw-name
matched. -/
def ParsedColumnPipelineRead.set_attr (ctx : ParseCtx) (r : ParsedColumnPipelineRead)
    (name value : String) : Except HamlError ParsedColumnPipelineRead :=
  match name with
  | "value" => .ok { r with value := value }
  | n => .error (perr ctx .unknownAttr "read"
      ("The read element of a column pipeline does not support an attribute called " ++ n ++ "."))

/-- ParsedHypi::set_attr: raw-name matched well-known attribute with a
lowercased value; the unknown-attribute error names the table element as in
the source. -/
def ParsedHypi.set_attr (ctx : ParseCtx) (h : ParsedHypi) (name value : String) :
    Except HamlError ParsedHypi :=
  match name with
  | "well-known" =>
    match lowerStr value with
    | "account" => .ok { h with well_known := some .account }
    | "file" => .ok { h with well_known := some .file }
    | _ => .error (perr ctx .unknownWellKnownType "hypi"
        ("The hypi element does not support a well known type called " ++ value ++ "."))
  | _ => .error (perr ctx .unknownAttr "table"
      ("The hypi element does not support an attribute called " ++ name ++ "."))

/-- ParsedMapping::set_attr: lowercased name; from, to and type attributes;
the error names the table element as in the source. -/
def ParsedMapping.set_attr (ctx : ParseCtx) (m : ParsedMapping) (name value : String) :
    Except HamlError ParsedMapping :=
  match lowerStr name with
  | "from" => .ok { m with from_field := value }
  | "to" => .ok { m with to_field := some value }
  | "type" =>
    match parse_column_type ctx value with
    | .ok ty => .ok { m with typ := some ty }
    | .error e => .error e
  | _ => .error (perr ctx .unknownAttr "table"
      ("The mapping element does not support an attribute called " ++ name ++ "."))

/-- ParsedGlobalOptions::set_attr: lowercased name; the crud table list is
extended with the comma-separated value. -/
def ParsedGlobalOptions.set_attr (ctx : ParseCtx) (g : ParsedGlobalOptions)
    (name value : String) : Except HamlError ParsedGlobalOptions :=
  match lowerStr name with
  | "enable-crud-on-tables" =>
    .ok { g with explicitly_enabled_crud_tables :=
      g.explicitly_enabled_crud_tables ++ splitCh value ',' }
  | _ => .error (perr ctx .unknownAttr "global-options"
      ("The global-options element of apis does not support an attribute called " ++ name ++ "."))

/-- The ParsedCoreApiName set_attr: lowercased name attribute replaces the
whole string. -/
def coreApiSetAttr (ctx : ParseCtx) (_s : String) (name value : String) :
    Except HamlError String :=
  match lowerStr name with
  | "name" => .ok value
  | _ => .error (perr ctx .unknownAttr "global-options"
      ("The core-api element of global-options does not support an attribute called " ++
        name ++ "."))

/-- ParsedRest::set_attr: lowercased name; only base. -/
def ParsedRest.set_attr (ctx : ParseCtx) (r : ParsedRest) (name value : String) :
    Except HamlError ParsedRest :=
  match lowerStr name with
  | "base" => .ok { r with base := value }
  | _ => .error (perr ctx .unknownAttr "rest"
      ("The rest element does not support an attribute called " ++ name ++ "."))

/-- ParsedEndpoint::set_attr: lowercases the name; import must be alone on
the element; importing requires an endpoint root and replaces the whole
record with the imported one (a blank default endpoint is left in the
imported cell). -/
def ParsedEndpoint.set_attr (ctx : ParseCtx) (store : Store) (e : ParsedEndpoint)
    (name value : String) : Except HamlError (Store × ParsedEndpoint) :=
  let attr_name := lowerStr name
  if attr_name = "import" ∧ ctx.attributes.length > 1 then
    .error (perr ctx .missingImport "endpoint" (importCombinedMsg value ctx.attributes))
  else
    match attr_name with
    | "accepts" => .ok (store, { e with accepts := some value })
    | "produces" => .ok (store, { e with produces := some value })
    | "path" => .ok (store, { e with path := some value })
    | "name" => .ok (store, { e with name := some value })
    | "public" => .ok (store, { e with public := some (lowerStr value == "true") })
    | "pipeline" => .ok (store, { e with pipeline := some value })
    | "method" =>
      match HttpMethod.fromString value with
      | some m => .ok (store, { e with method := m })
      | none => .error (perr ctx .unknownAttr "endpoint"
          ("An endpoint does not support " ++ value ++ " in the method attribute"))
    | "import" =>
      match ctx.imp store value with
      | .ok (store2, ref) =>
        match getNode store2 ref with
        | .apiEndpoint ep => .ok (setNode store2 ref (.apiEndpoint {}), ep)
        | _ => .error (perr ctx .missingImport "endpoint" (importNotExpectedMsg value))
      | .error err => .error err
    | _ => .error (perr ctx .unknownAttr "endpoint"
        ("The endpoint element does not support an attribute called " ++ name ++ "."))

/-- ParsedEndpointResponse::set_attr: lowercased name; the status value must
parse as a u16. -/
def ParsedEndpointResponse.set_attr (ctx : ParseCtx) (r : ParsedEndpointResponse)
    (name value : String) : Except HamlError ParsedEndpointResponse :=
  match lowerStr name with
  | "status" =>
    match parseU16 value with
    | some n => .ok { r with status := n }
    | none => .error (perr ctx .unknownAttr "response"
        ("The response status attribute must be a number - got " ++ value ++ "."))
  | "when" => .ok { r with whenCond := some value }
  | "yield" => .ok { r with yield_expr := some value }
  | _ => .error (perr ctx .unknownAttr "response"
      ("The response element does not support a " ++ name ++ " attribute."))

/-- ParsedEndpointSql::set_attr: lowercased name; async, db and label. -/
def ParsedEndpointSql.set_attr (ctx : ParseCtx) (s : ParsedEndpointSql)
    (name value : String) : Except HamlError ParsedEndpointSql :=
  match lowerStr name with
  | "async" => .ok { s with is_async := lowerStr value == "true" }
  | "db" => .ok { s with db_name := some value }
  | "label" => .ok { s with label := some value }
  | _ => .error (perr ctx .unknownAttr "sql"
      ("The sql element does not support a " ++ name ++ " attribute."))

/-- ParsedEndpointFn::set_attr: lowercased name; label, name, async and
version. -/
def ParsedEndpointFn.set_attr (ctx : ParseCtx) (f : ParsedEndpointFn)
    (name value : String) : Except HamlError ParsedEndpointFn :=
  match lowerStr name with
  | "label" => .ok { f with label := some value }
  | "name" => .ok { f with name := value }
  | "async" => .ok { f with is_async := lowerStr value == "true" }
  | "version" => .ok { f with version := value }
  | _ => .error (perr ctx .unknownAttr "fn"
      ("The fn element does not support a " ++ name ++ " attribute."))

/-- ParsedEndpointWebsocket::set_attr: lowercased name; base, and source
split on the pipe character into the sources list. -/
def ParsedEndpointWebsocket.set_attr (ctx : ParseCtx) (w : ParsedEndpointWebsocket)
    (name value : String) : Except HamlError ParsedEndpointWebsocket :=
  match lowerStr name with
  | "base" => .ok { w with base := value }
  | "source" => .ok { w with sources := w.sources ++ splitCh value '|' }
  | _ => .error (perr ctx .unknownAttr "websocket"
      ("The websocket element does not support a " ++ name ++ " attribute."))

/-- ParsedGraphQL::set_attr: lowercased name; base, from and
enable-subscriptions. -/
def ParsedGraphQL.set_attr (ctx : ParseCtx) (g : ParsedGraphQL) (name value : String) :
    Except HamlError ParsedGraphQL :=
  match lowerStr name with
  | "base" => .ok { g with base := value }
  | "from" => .ok { g with from_field := value }
  | "enable-subscriptions" => .ok { g with enable_subscriptions := lowerStr value == "true" }
  | _ => .error (perr ctx .unknownAttr "graphql"
      ("The graphql element does not support a " ++ name ++ " attribute."))

/-- ParsedJob::set_attr: lowercased name over the eight job attributes. -/
def ParsedJob.set_attr (ctx : ParseCtx) (j : ParsedJob) (name value : String) :
    Except HamlError ParsedJob :=
  match lowerStr name with
  | "name" => .ok { j with name := value }
  | "pipeline" => .ok { j with pipeline := value }
  | "enabled" => .ok { j with enabled := lowerStr value == "true" }
  | "repeats" => .ok { j with repeats := lowerStr value == "true" }
  | "start" => .ok { j with start := value }
  | "end" => .ok { j with endTime := value }
  | "interval" => .ok { j with interval := value }
  | "intervalfrequency" => .ok { j with interval_frequency := value }
  | _ => .error (perr ctx .unknownAttr "job"
      ("The job element does not support a " ++ name ++ " attribute."))

/-- ParsedEndpointScript::set_attr: lowercased name; label and async, and
the import attribute simply stores the value into the file field without any
file resolution; the error names the job element as in the source. -/
def ParsedEndpointScript.set_attr (ctx : ParseCtx) (s : ParsedEndpointScript)
    (name value : String) : Except HamlError ParsedEndpointScript :=
  match lowerStr name with
  | "label" => .ok { s with label := some value }
  | "async" => .ok { s with is_async := lowerStr value == "true" }
  | "import" => .ok { s with file := value }
  | _ => .error (perr ctx .unknownAttr "job"
      ("The script element does not support a " ++ name ++ " attribute."))

/-- ParsedCall::set_attr: lowercased name; label, async and target. -/
def ParsedCall.set_attr (ctx : ParseCtx) (c : ParsedCall) (name value : String) :
    Except HamlError ParsedCall :=
  match lowerStr name with
  | "label" => .ok { c with label := some value }
  | "async" => .ok { c with is_async := lowerStr value == "true" }
  | "target" => .ok { c with target := value }
  | _ => .error (perr ctx .unknownAttr "call"
      ("The call element does not support a " ++ name ++ " attribute."))

/-- ParsedPipeline::set_attr: lowercases the name; import must be alone on
the element; importing requires a pipeline root and replaces the whole record
with the imported one (a blank pipeline is left in the imported cell). -/
def ParsedPipeline.set_attr (ctx : ParseCtx) (store : Store) (p : ParsedPipeline)
    (name value : String) : Except HamlError (Store × ParsedPipeline) :=
  let attr_name := lowerStr name
  if attr_name = "import" ∧ ctx.attributes.length > 1 then
    .error (perr ctx .missingImport "pipeline" (importCombinedMsg value ctx.attributes))
  else
    match attr_name with
    | "import" =>
      match ctx.imp store value with
      | .ok (store2, ref) =>
        match getNode store2 ref with
        | .pipeline pl => .ok (setNode store2 ref (.pipeline {}), pl)
        | _ => .error (perr ctx .missingImport "pipeline" (importNotExpectedMsg value))
      | .error err => .error err
    | "label" => .ok (store, { p with label := some value })
    | "name" => .ok (store, { p with name := value })
    | "async" => .ok (store, { p with is_async := lowerStr value == "true" })
    | _ => .error (perr ctx .unknownAttr "pipeline"
        ("The pipeline element does not support a " ++ name ++ " attribute."))

/-- ParsedMeta::set_attr: the meta element rejects every attribute
(lowercased, then matched against nothing). -/
def ParsedMeta.set_attr (ctx : ParseCtx) (_m : ParsedMeta) (name : String)
    (_value : String) : Except HamlError ParsedMeta :=
  .error (perr ctx .unknownAttr "meta"
    ("meta elements do not support an attribute called " ++ lowerStr name))

/-- ParsedKeyValuePair::set_attr: lowercased name; key and value. -/
def ParsedKeyValuePair.set_attr (ctx : ParseCtx) (p : ParsedKeyValuePair)
    (name value : String) : Except HamlError ParsedKeyValuePair :=
  match lowerStr name with
  | "key" => .ok { p with key := value }
  | "value" => .ok { p with value := value }
  | _ => .error (perr ctx .unknownAttr "pair"
      ("The pair element does not support a " ++ name ++ " attribute."))

/-- ParsedSchema::set_attr: lowercased name; only name. -/
def ParsedSchema.set_attr (ctx : ParseCtx) (s : ParsedSchema) (name value : String) :
    Except HamlError ParsedSchema :=
  match lowerStr name with
  | "name" => .ok { s with name := value }
  | _ => .error (perr ctx .unknownAttr "schema"
      ("The db schema element does not support a " ++ name ++ " attribute."))

/-- The shared action parse of the on_delete and on_update arms of the
constraint handler: the lowercased value must be cascade or restrict. -/
def cvActionOf (value : String) : Option ConstraintViolationAction :=
  match lowerStr value with
  | "cascade" => some ConstraintViolationAction.cascade
  | "restrict" => some ConstraintViolationAction.restrict
  | _ => none

/-- ParsedConstraint::set_attr: lowercased name.  The on_delete and on_update
attributes accept cascade or restrict and promote a Unique constraint to a
ForeignKey carrying the new action (preserving the other action when the
constraint already is a foreign key).  The type attribute sets Unique back
unconditionally for the value unique, promotes to a blank ForeignKey for
foreign_key only when currently Unique, and silently ignores any other
value. -/
def ParsedConstraint.set_attr (ctx : ParseCtx) (c : ParsedConstraint)
    (name value : String) : Except HamlError ParsedConstraint :=
  match lowerStr name with
  | "name" => .ok { c with name := value }
  | "columns" => .ok { c with columns := splitCh value ',' }
  | "on_delete" =>
    match cvActionOf value with
    | some action =>
      match c.typ with
      | .unique => .ok { c with typ := .foreignKey (some action) none }
      | .foreignKey _ ou => .ok { c with typ := .foreignKey (some action) ou }
    | none => .error (perr ctx .unknownAttr "schema"
        ("The on_delete attr does not support " ++ name ++
          ", only cascade OR restrict are allowed."))
  | "on_update" =>
    match cvActionOf value with
    | some action =>
      match c.typ with
      | .unique => .ok { c with typ := .foreignKey none (some action) }
      | .foreignKey od _ => .ok { c with typ := .foreignKey od (some action) }
    | none => .error (perr ctx .unknownAttr "schema"
        ("The on_update attr does not support " ++ name ++
          ", only cascade OR restrict are allowed."))
  | "type" =>
    match lowerStr value with
    | "unique" => .ok { c with typ := .unique }
    | "foreign_key" =>
      match c.typ with
      | .unique => .ok { c with typ := .foreignKey none none }
      | .foreignKey od ou => .ok { c with typ := .foreignKey od ou }
    | _ => .ok c
  | _ => .error (perr ctx .unknownAttr "schema"
      ("The table constraint element does not support a " ++ name ++ " attribute."))

/-- ParsedDb::set_attr: lowercased name over the eight db attributes; a
failing port parse is swallowed into None and the type value goes through the
delegated database type lookup. -/
def ParsedDb.set_attr (ctx : ParseCtx) (d : ParsedDb) (name value : String) :
    Except HamlError ParsedDb :=
  match lowerStr name with
  | "label" => .ok { d with label := value }
  | "db_name" => .ok { d with db_name := value }
  | "host" => .ok { d with host := value }
  | "port" => .ok { d with port := parseU16 value }
  | "username" => .ok { d with username := value }
  | "password" => .ok { d with password := value }
  | "options" => .ok { d with options := some value }
  | "type" =>
    match DatabaseType.fromString value with
    | some ty => .ok { d with typ := ty }
    | none => .error (perr ctx .unknownAttr "db"
        ("The db element does not support " ++ value ++ " as a database type."))
  | _ => .error (perr ctx .unknownAttr "db"
      ("The db element does not support a " ++ name ++ " attribute."))

/-- ParsedEnv::set_attr: lowercased name; name and value; the error names the
pipeline element as in the source. -/
def ParsedEnv.set_attr (ctx : ParseCtx) (e : ParsedEnv) (name value : String) :
    Except HamlError ParsedEnv :=
  match lowerStr name with
  | "name" => .ok { e with name := value }
  | "value" => .ok { e with value := value }
  | _ => .error (perr ctx .unknownAttr "pipeline"
      ("The env element does not support a " ++ name ++ " attribute."))

/-- ParsedDockerStep::set_attr: matches the raw attribute name (no
lowercasing).  The before attribute parses into implicit_before_position,
and the after attribute also assigns implicit_before_position, exactly as
the source does; nothing writes implicit_after_position. -/
def ParsedDockerStep.set_attr (ctx : ParseCtx) (s : ParsedDockerStep)
    (name value : String) : Except HamlError ParsedDockerStep :=
  match name with
  | "name" => .ok { s with name := value }
  | "before" =>
    match ImplicitDockerStepPosition.from_str value with
    | .ok p => .ok { s with implicit_before_position := some p }
    | .error e => .error (perr ctx .invalidStepLoc "step"
        ("Invalid before value. " ++ e ++ ". Supported values are first OR each OR last"))
  | "after" =>
    match ImplicitDockerStepPosition.from_str value with
    | .ok p => .ok { s with implicit_before_position := some p }
    | .error e => .error (perr ctx .invalidStepLoc "step"
        ("Invalid after value. " ++ e ++ ". Supported values are first OR each OR last"))
  | "provider" =>
    match DockerStepProvider.from_str value with
    | .ok p => .ok { s with provider := p }
    | .error e => .error (perr ctx .invalidProvider "provider"
        ("Invalid provider value. " ++ e ++
          ". Supported formats are file:path OR docker:image-name:tag"))
  | n => .error (perr ctx .unknownAttr "provider"
      ("The step element of a pipeline does not support an element called " ++ n ++ "."))

/-- DockerConnectionInfo::set_attr (the step-builder element): matches the
raw name; the image attribute reparses the whole record from the value while
restoring the previously stamped start and end Locations. -/
def DockerConnectionInfo.set_attr (ctx : ParseCtx) (i : DockerConnectionInfo)
    (name value : String) : Except HamlError DockerConnectionInfo :=
  match name with
  | "image" =>
    match parse_docker_image value with
    | .ok info => .ok { info with start_pos := i.start_pos, end_pos := i.end_pos }
    | .error e => .error (perr ctx .invalidStepLoc "step"
        ("Invalid before value. " ++ e ++ ". Supported values are first OR each OR last"))
  | n => .error (perr ctx .unknownAttr "provider"
      ("The step-builder element of a pipeline does not support an element called " ++ n ++ "."))

/-- ParsedApis set_attr: the apis element rejects every attribute (raw-name
matched in the source, against nothing). -/
def ParsedApis.set_attr (ctx : ParseCtx) (_a : ParsedApis) (name : String)
    (_value : String) : Except HamlError ParsedApis :=
  .error (perr ctx .unknownAttr "apis"
    ("The apis element does not support an attribute called " ++ name ++
      "...in fact, it does not support any attributes at all."))

/-- The ParsedTables set_attr: the tables element rejects every attribute. -/
def tablesSetAttr (ctx : ParseCtx) (_ts : List Ref) (name : String) (_value : String) :
    Except HamlError (List Ref) :=
  .error (perr ctx .unknownAttr "tables"
    ("The tables element does not support an attribute called " ++ name ++
      "...in fact, it does not support any attributes at all."))

/-- The set_attr dispatch of ParsedHypiSchemaElement: forwards to the
matching record handler; only the table, endpoint and pipeline handlers can
touch the store (via import). -/
def ParsedHypiSchemaElement.set_attr (ctx : ParseCtx) (store : Store)
    (n : ParsedHypiSchemaElement) (name value : String) :
    Except HamlError (Store × ParsedHypiSchemaElement) :=
  match n with
  | .parsedDocument d => match d.set_attr ctx name value with
    | .ok x => .ok (store, .parsedDocument x)
    | .error e2 => .error e2
  | .parsedTable t =>
    match ParsedTable.set_attr ctx store t name value with
    | .ok (s2, t2) => .ok (s2, .parsedTable t2)
    | .error e => .error e
  | .column c => match c.set_attr ctx name value with
    | .ok x => .ok (store, .column x)
    | .error e2 => .error e2
  | .apis a => match a.set_attr ctx name value with
    | .ok x => .ok (store, .apis x)
    | .error e2 => .error e2
  | .parsedTables ts => match tablesSetAttr ctx ts name value with
    | .ok x => .ok (store, .parsedTables x)
    | .error e2 => .error e2
  | .columnPipeline p => match p.set_attr ctx name value with
    | .ok x => .ok (store, .columnPipeline x)
    | .error e2 => .error e2
  | .columnPipelineArgs a =>
    match a.set_attr ctx name value with
    | .ok x => .ok (store, .columnPipelineArgs x)
    | .error e2 => .error e2
  | .columnPipelineWrite w =>
    match w.set_attr ctx name value with
    | .ok x => .ok (store, .columnPipelineWrite x)
    | .error e2 => .error e2
  | .columnPipelineRead r =>
    match r.set_attr ctx name value with
    | .ok x => .ok (store, .columnPipelineRead x)
    | .error e2 => .error e2
  | .hypi h => match h.set_attr ctx name value with
    | .ok x => .ok (store, .hypi x)
    | .error e2 => .error e2
  | .mapping m => match m.set_attr ctx name value with
    | .ok x => .ok (store, .mapping x)
    | .error e2 => .error e2
  | .apiGlobalOptions g => match g.set_attr ctx name value with
    | .ok x => .ok (store, .apiGlobalOptions x)
    | .error e2 => .error e2
  | .apiCoreApi s => match coreApiSetAttr ctx s name value with
    | .ok x => .ok (store, .apiCoreApi x)
    | .error e2 => .error e2
  | .apiRest r => match r.set_attr ctx name value with
    | .ok x => .ok (store, .apiRest x)
    | .error e2 => .error e2
  | .apiEndpoint e =>
    match ParsedEndpoint.set_attr ctx store e name value with
    | .ok (s2, e2) => .ok (s2, .apiEndpoint e2)
    | .error e => .error e
  | .apiGraphQL g => match g.set_attr ctx name value with
    | .ok x => .ok (store, .apiGraphQL x)
    | .error e2 => .error e2
  | .apiJob j => match j.set_attr ctx name value with
    | .ok x => .ok (store, .apiJob x)
    | .error e2 => .error e2
  | .apiEndpointResponse r =>
    match r.set_attr ctx name value with
    | .ok x => .ok (store, .apiEndpointResponse x)
    | .error e2 => .error e2
  | .pipeline p =>
    match ParsedPipeline.set_attr ctx store p name value with
    | .ok (s2, p2) => .ok (s2, .pipeline p2)
    | .error e => .error e
  | .apiEndpointScript s =>
    match s.set_attr ctx name value with
    | .ok x => .ok (store, .apiEndpointScript x)
    | .error e2 => .error e2
  | .apiEndpointCall c => match c.set_attr ctx name value with
    | .ok x => .ok (store, .apiEndpointCall x)
    | .error e2 => .error e2
  | .apiEndpointSql s => match s.set_attr ctx name value with
    | .ok x => .ok (store, .apiEndpointSql x)
    | .error e2 => .error e2
  | .apiEndpointFn f => match f.set_attr ctx name value with
    | .ok x => .ok (store, .apiEndpointFn x)
    | .error e2 => .error e2
  | .dockerStep s => match s.set_attr ctx name value with
    | .ok x => .ok (store, .dockerStep x)
    | .error e2 => .error e2
  | .dockerStepBuilder i =>
    match i.set_attr ctx name value with
    | .ok x => .ok (store, .dockerStepBuilder x)
    | .error e2 => .error e2
  | .apiEndpointWebsocket w =>
    match w.set_attr ctx name value with
    | .ok x => .ok (store, .apiEndpointWebsocket x)
    | .error e2 => .error e2
  | .env e => match e.set_attr ctx name value with
    | .ok x => .ok (store, .env x)
    | .error e2 => .error e2
  | .db d => match d.set_attr ctx name value with
    | .ok x => .ok (store, .db x)
    | .error e2 => .error e2
  | .constraint c => match c.set_attr ctx name value with
    | .ok x => .ok (store, .constraint x)
    | .error e2 => .error e2
  | .parsedSchema s => match s.set_attr ctx name value with
    | .ok x => .ok (store, .parsedSchema x)
    | .error e2 => .error e2
  | .meta m => match m.set_attr ctx name value with
    | .ok x => .ok (store, .meta x)
    | .error e2 => .error e2
  | .pair p => match p.set_attr ctx name value with
    | .ok x => .ok (store, .pair x)
    | .error e2 => .error e2

/-- The element name of a node (ParsedHypiSchemaElement::name); the Pipeline
variant maps to the same string as a column pipeline, as in the source. -/
def ParsedHypiSchemaElement.name : ParsedHypiSchemaElement → String
  | .parsedDocument _ => "document"
  | .parsedTables _ => "tables"
  | .parsedTable _ => "table"
  | .column _ => "column"
  | .apis _ => "apis"
  | .columnPipeline _ => "pipeline"
  | .columnPipelineArgs _ => "args"
  | .columnPipelineWrite _ => "write"
  | .columnPipelineRead _ => "read"
  | .hypi _ => "hypi"
  | .mapping _ => "mapping"
  | .apiGlobalOptions _ => "global-options"
  | .apiCoreApi _ => "core-api"
  | .apiRest _ => "rest"
  | .apiEndpoint _ => "endpoint"
  | .apiEndpointResponse _ => "response"
  | .apiEndpointSql _ => "sql"
  | .dockerStep _ => "step"
  | .dockerStepBuilder _ => "step-builder"
  | .apiEndpointFn _ => "fn"
  | .apiEndpointWebsocket _ => "websocket"
  | .apiEndpointScript _ => "script"
  | .apiEndpointCall _ => "call"
  | .apiGraphQL _ => "graphql"
  | .apiJob _ => "job"
  | .pipeline _ => "pipeline"
  | .env _ => "env"
  | .db _ => "db"
  | .constraint _ => "constraint"
  | .parsedSchema _ => "schema"
  | .meta _ => "meta"
  | .pair _ => "pair"

/-- The Location value assigned by set_location: every field of the
existing Location is overwritten. -/
def setLoc (line column child_index : Nat) (file_name : String) : Location :=
  { file_name := file_name, line := line, column := column, child_index := child_index }

/-- ParsedHypiSchemaElement::set_location: stamps either the start or the end
Location of the node; the ParsedTables and ApiCoreApi variants carry no
Location and are untouched, as in the source. -/
def ParsedHypiSchemaElement.set_location (n : ParsedHypiSchemaElement)
    (line column child_index : Nat) (file_name : String) (is_start : Bool) :
    ParsedHypiSchemaElement :=
  let l := setLoc line column child_index file_name
  match n with
  | .parsedDocument d =>
    .parsedDocument (if is_start then { d with start_pos := l } else { d with end_pos := l })
  | .parsedTables ts => .parsedTables ts
  | .parsedTable t =>
    .parsedTable (if is_start then { t with start_pos := l } else { t with end_pos := l })
  | .column c => .column (if is_start then { c with start_pos := l } else { c with end_pos := l })
  | .apis a => .apis (if is_start then { a with start_pos := l } else { a with end_pos := l })
  | .columnPipeline p =>
    .columnPipeline (if is_start then { p with start_pos := l } else { p with end_pos := l })
  | .columnPipelineArgs a =>
    .columnPipelineArgs (if is_start then { a with start_pos := l } else { a with end_pos := l })
  | .columnPipelineWrite w =>
    .columnPipelineWrite (if is_start then { w with start_pos := l } else { w with end_pos := l })
  | .columnPipelineRead r =>
    .columnPipelineRead (if is_start then { r with start_pos := l } else { r with end_pos := l })
  | .hypi h => .hypi (if is_start then { h with start_pos := l } else { h with end_pos := l })
  | .mapping m =>
    .mapping (if is_start then { m with start_pos := l } else { m with end_pos := l })
  | .apiGlobalOptions g =>
    .apiGlobalOptions (if is_start then { g with start_pos := l } else { g with end_pos := l })
  | .apiCoreApi s => .apiCoreApi s
  | .apiRest r => .apiRest (if is_start then { r with start_pos := l } else { r with end_pos := l })
  | .apiEndpoint e =>
    .apiEndpoint (if is_start then { e with start_pos := l } else { e with end_pos := l })
  | .apiEndpointResponse r =>
    .apiEndpointResponse (if is_start then { r with start_pos := l } else { r with end_pos := l })
  | .apiEndpointSql s =>
    .apiEndpointSql (if is_start then { s with start_pos := l } else { s with end_pos := l })
  | .dockerStep s =>
    .dockerStep (if is_start then { s with start_pos := l } else { s with end_pos := l })
  | .dockerStepBuilder i =>
    .dockerStepBuilder (if is_start then { i with start_pos := l } else { i with end_pos := l })
  | .apiEndpointFn f =>
    .apiEndpointFn (if is_start then { f with start_pos := l } else { f with end_pos := l })
  | .apiEndpointWebsocket w =>
    .apiEndpointWebsocket (if is_start then { w with start_pos := l } else { w with end_pos := l })
  | .apiEndpointScript s =>
    .apiEndpointScript (if is_start then { s with start_pos := l } else { s with end_pos := l })
  | .apiEndpointCall c =>
    .apiEndpointCall (if is_start then { c with start_pos := l } else { c with end_pos := l })
  | .apiGraphQL g =>
    .apiGraphQL (if is_start then { g with start_pos := l } else { g with end_pos := l })
  | .apiJob j => .apiJob (if is_start then { j with start_pos := l } else { j with end_pos := l })
  | .pipeline p =>
    .pipeline (if is_start then { p with start_pos := l } else { p with end_pos := l })
  | .env e => .env (if is_start then { e with start_pos := l } else { e with end_pos := l })
  | .db d => .db (if is_start then { d with start_pos := l } else { d with end_pos := l })
  | .constraint c =>
    .constraint (if is_start then { c with start_pos := l } else { c with end_pos := l })
  | .parsedSchema s =>
    .parsedSchema (if is_start then { s with start_pos := l } else { s with end_pos := l })
  | .meta m => .meta (if is_start then { m with start_pos := l } else { m with end_pos := l })
  | .pair p => .pair (if is_start then { p with start_pos := l } else { p with end_pos := l })

/-- ParsedEndpointSql::set_str_body: the body assignment replaces the sql
text outright (no concatenation). -/
def ParsedEndpointSql.set_str_body (s : ParsedEndpointSql) (value : String) :
    ParsedEndpointSql :=
  { s with sql := value }

/-- ParsedEndpointResponse::set_str_body: the body assignment replaces the
response body outright (no concatenation). -/
def ParsedEndpointResponse.set_str_body (r : ParsedEndpointResponse) (value : String) :
    ParsedEndpointResponse :=
  { r with body := some value }

/-- The set_str_body dispatch: only the sql and response kinds override the
default, which accepts the text silently without storing it. -/
def ParsedHypiSchemaElement.set_str_body (n : ParsedHypiSchemaElement) (value : String) :
    ParsedHypiSchemaElement :=
  match n with
  | .apiEndpointSql s => .apiEndpointSql (s.set_str_body value)
  | .apiEndpointResponse r => .apiEndpointResponse (r.set_str_body value)
  | other => other

/-- ParsedDb::validate: db_name and host must be non-blank. -/
def ParsedDb.validate (ctx : ParseCtx) (d : ParsedDb) : Except HamlError Unit :=
  if trimIsEmpty d.db_name then
    .error (perr ctx .unsupportedChild "sql" "db_name is required.")
  else if trimIsEmpty d.host then
    .error (perr ctx .unsupportedChild "sql" "host is required.")
  else
    .ok ()

/-- The validate dispatch: only the db kind has a real end-of-element
validation; every other kind (including the docker step and step-builder
arms, short-circuited in the source dispatch) validates trivially. -/
def ParsedHypiSchemaElement.validate (ctx : ParseCtx) (n : ParsedHypiSchemaElement) :
    Except HamlError Unit :=
  match n with
  | .db d => d.validate ctx
  | _ => .ok ()

/-- ParsedDocument::append_child: apis and meta replace the whole slot, env,
step-builder and db entries are pushed in order; anything else is an
unsupported child. -/
def ParsedDocument.append_child (ctx : ParseCtx) (d : ParsedDocument) (r : Ref)
    (child : ParsedHypiSchemaElement) : Except HamlError ParsedDocument :=
  match child with
  | .apis _ => .ok { d with apis := r }
  | .env _ => .ok { d with env := d.env ++ [r] }
  | .dockerStepBuilder _ => .ok { d with step_builders := d.step_builders ++ [r] }
  | .db _ => .ok { d with databases := d.databases ++ [r] }
  | .meta _ => .ok { d with meta := r }
  | el => .error (perr ctx .unsupportedChild "document"
      ("The document element does not support " ++ el.name ++ " elements inside it."))

/-- ParsedTable::append_child: columns and constraints are pushed in order,
the hypi slot is assigned. -/
def ParsedTable.append_child (ctx : ParseCtx) (t : ParsedTable) (r : Ref)
    (child : ParsedHypiSchemaElement) : Except HamlError ParsedTable :=
  match child with
  | .column _ => .ok { t with columns := t.columns ++ [r] }
  | .hypi _ => .ok { t with hypi := some r }
  | .constraint _ => .ok { t with constraints := t.constraints ++ [r] }
  | el => .error (perr ctx .unsupportedChild "table"
      ("The table element does not support " ++ el.name ++ " elements inside it."))

/-- ParsedColumn::append_child: at most one column pipeline. -/
def ParsedColumn.append_child (ctx : ParseCtx) (c : ParsedColumn) (r : Ref)
    (child : ParsedHypiSchemaElement) : Except HamlError ParsedColumn :=
  match child with
  | .columnPipeline _ =>
    if c.pipeline.isSome then
      .error (perr ctx .cannotRepeat "column"
        "The column element does support multiple pipeline elements.")
    else
      .ok { c with pipeline := some r }
  | el => .error (perr ctx .unsupportedChild "column"
      ("The column element does not support " ++ el.name ++ " elements inside it."))

/-- ParsedColumnPipeline::append_child: at most one each of args, write and
read. -/
def ParsedColumnPipeline.append_child (ctx : ParseCtx) (p : ParsedColumnPipeline) (r : Ref)
    (child : ParsedHypiSchemaElement) : Except HamlError ParsedColumnPipeline :=
  match child with
  | .columnPipelineArgs _ =>
    if p.args.isNone then .ok { p with args := some r }
    else .error (perr ctx .cannotRepeat "args"
      "Only 1 args element can appear inside a column pipeline")
  | .columnPipelineWrite _ =>
    if p.write.isNone then .ok { p with write := some r }
    else .error (perr ctx .cannotRepeat "args"
      "Only 1 write element can appear inside a column pipeline")
  | .columnPipelineRead _ =>
    if p.read.isNone then .ok { p with read := some r }
    else .error (perr ctx .cannotRepeat "args"
      "Only 1 read element can appear inside a column pipeline")
  | el => .error (perr ctx .unsupportedChild "pipeline"
      ("The pipeline element does not support " ++ el.name ++ " elements inside it."))

/-- ParsedHypi::append_child: mappings only. -/
def ParsedHypi.append_child (ctx : ParseCtx) (h : ParsedHypi) (r : Ref)
    (child : ParsedHypiSchemaElement) : Except HamlError ParsedHypi :=
  match child with
  | .mapping _ => .ok { h with mappings := h.mappings ++ [r] }
  | el => .error (perr ctx .unsupportedChild "hypi"
      ("The hypi element does not support " ++ el.name ++ " elements inside it."))

/-- ParsedMapping::append_child: nested mappings only. -/
def ParsedMapping.append_child (ctx : ParseCtx) (m : ParsedMapping) (r : Ref)
    (child : ParsedHypiSchemaElement) : Except HamlError ParsedMapping :=
  match child with
  | .mapping _ => .ok { m with children := m.children ++ [r] }
  | el => .error (perr ctx .unsupportedChild "mapping"
      ("The mapping element does not support " ++ el.name ++ " elements inside it."))

/-- ParsedGlobalOptions::append_child: docker steps are pushed as implicit
steps; a core-api child is resolved (lowercased) against the recognized core
api identifiers. -/
def ParsedGlobalOptions.append_child (ctx : ParseCtx) (g : ParsedGlobalOptions) (r : Ref)
    (child : ParsedHypiSchemaElement) : Except HamlError ParsedGlobalOptions :=
  match child with
  | .dockerStep _ => .ok { g with implicit_steps := g.implicit_steps ++ [r] }
  | .apiCoreApi s =>
    match lowerStr s with
    | "register" => .ok { g with core_apis := g.core_apis ++ [.register] }
    | "login-by-email" => .ok { g with core_apis := g.core_apis ++ [.loginByEmail] }
    | "login-by-username" => .ok { g with core_apis := g.core_apis ++ [.loginByUsername] }
    | "oauth" => .ok { g with core_apis := g.core_apis ++ [.oauth] }
    | "password-reset-trigger" =>
      .ok { g with core_apis := g.core_apis ++ [.passwordResetTrigger] }
    | "password-reset" => .ok { g with core_apis := g.core_apis ++ [.passwordReset] }
    | "verify-account" => .ok { g with core_apis := g.core_apis ++ [.verifyAccount] }
    | "magic-link" => .ok { g with core_apis := g.core_apis ++ [.magicLink] }
    | "2fa-email" => .ok { g with core_apis := g.core_apis ++ [.twoFactorAuthEmail] }
    | "2fa-sms" => .ok { g with core_apis := g.core_apis ++ [.twoFactorAuthSms] }
    | "2fa-step2" => .ok { g with core_apis := g.core_apis ++ [.twoFactorStep2] }
    | "2fa-totp" => .ok { g with core_apis := g.core_apis ++ [.twoFactorTotp] }
    | n => .error (perr ctx .unsupportedChild "core-api"
        ("No core api supported with the name " ++ n ++ "."))
  | el => .error (perr ctx .unsupportedChild "core-api"
      ("The global-options element does not support " ++ el.name ++ " elements inside it."))

/-- ParsedApis::append_child: global-options, rest and graphql fill their
slots, pipelines and jobs are pushed in order. -/
def ParsedApis.append_child (ctx : ParseCtx) (a : ParsedApis) (r : Ref)
    (child : ParsedHypiSchemaElement) : Except HamlError ParsedApis :=
  match child with
  | .apiGlobalOptions _ => .ok { a with global_options := some r }
  | .apiRest _ => .ok { a with rest := some r }
  | .pipeline _ => .ok { a with pipelines := a.pipelines ++ [r] }
  | .apiGraphQL _ => .ok { a with graphql := some r }
  | .apiJob _ => .ok { a with jobs := a.jobs ++ [r] }
  | el => .error (perr ctx .unsupportedChild "apis"
      ("The apis element does not support " ++ el.name ++ " elements inside it."))

/-- ParsedRest::append_child: endpoints only. -/
def ParsedRest.append_child (ctx : ParseCtx) (rst : ParsedRest) (r : Ref)
    (child : ParsedHypiSchemaElement) : Except HamlError ParsedRest :=
  match child with
  | .apiEndpoint _ => .ok { rst with endpoints := rst.endpoints ++ [r] }
  | el => .error (perr ctx .unsupportedChild "rest"
      ("The rest element does not support " ++ el.name ++ " elements inside it."))

/-- ParsedEndpoint::append_child: responses and websockets. -/
def ParsedEndpoint.append_child (ctx : ParseCtx) (e : ParsedEndpoint) (r : Ref)
    (child : ParsedHypiSchemaElement) : Except HamlError ParsedEndpoint :=
  match child with
  | .apiEndpointResponse _ => .ok { e with responses := e.responses ++ [r] }
  | .apiEndpointWebsocket _ => .ok { e with websockets := e.websockets ++ [r] }
  | el => .error (perr ctx .unsupportedChild "endpoint"
      ("The endpoint element does not support " ++ el.name ++ " elements inside it."))

/-- ParsedEndpointResponse::append_child: mappings only (the error names the
endpoint element as in the source). -/
def ParsedEndpointResponse.append_child (ctx : ParseCtx) (rsp : ParsedEndpointResponse)
    (r : Ref) (child : ParsedHypiSchemaElement) : Except HamlError ParsedEndpointResponse :=
  match child with
  | .mapping _ => .ok { rsp with mappings := rsp.mappings ++ [r] }
  | el => .error (perr ctx .unsupportedChild "endpoint"
      ("The response element does not support " ++ el.name ++ " as a child."))

/-- ParsedEndpointSql::append_child: mappings only. -/
def ParsedEndpointSql.append_child (ctx : ParseCtx) (s : ParsedEndpointSql) (r : Ref)
    (child : ParsedHypiSchemaElement) : Except HamlError ParsedEndpointSql :=
  match child with
  | .mapping _ => .ok { s with mappings := s.mappings ++ [r] }
  | el => .error (perr ctx .unsupportedChild "sql"
      ("The SQL element does not support " ++ el.name ++ " as a child."))

/-- ParsedEndpointFn::append_child: mappings only. -/
def ParsedEndpointFn.append_child (ctx : ParseCtx) (f : ParsedEndpointFn) (r : Ref)
    (child : ParsedHypiSchemaElement) : Except HamlError ParsedEndpointFn :=
  match child with
  | .mapping _ => .ok { f with mappings := f.mappings ++ [r] }
  | el => .error (perr ctx .unsupportedChild "fn"
      ("The fn element does not support " ++ el.name ++ " as a child."))

/-- ParsedCall::append_child: mappings only. -/
def ParsedCall.append_child (ctx : ParseCtx) (c : ParsedCall) (r : Ref)
    (child : ParsedHypiSchemaElement) : Except HamlError ParsedCall :=
  match child with
  | .mapping _ => .ok { c with mappings := c.mappings ++ [r] }
  | el => .error (perr ctx .unsupportedChild "call"
      ("The call element does not support " ++ el.name ++ " child elements."))

/-- ParsedPipeline::append_child: docker steps go to the docker step list,
sql, fn, call, script and nested pipelines go in order into the
heterogeneous step list. -/
def ParsedPipeline.append_child (ctx : ParseCtx) (p : ParsedPipeline) (r : Ref)
    (child : ParsedHypiSchemaElement) : Except HamlError ParsedPipeline :=
  match child with
  | .dockerStep _ => .ok { p with docker_steps := p.docker_steps ++ [r] }
  | .apiEndpointFn _ => .ok { p with steps := p.steps ++ [.fnStep r] }
  | .apiEndpointSql _ => .ok { p with steps := p.steps ++ [.sql r] }
  | .apiEndpointCall _ => .ok { p with steps := p.steps ++ [.call r] }
  | .apiEndpointScript _ => .ok { p with steps := p.steps ++ [.script r] }
  | .pipeline _ => .ok { p with steps := p.steps ++ [.pipeline r] }
  | el => .error (perr ctx .unsupportedChild "pipeline"
      ("The pipeline element does not support " ++ el.name ++ " child elements."))

/-- ParsedDockerStep::append_child: mappings only (the error names the
provider element as in the source). -/
def ParsedDockerStep.append_child (ctx : ParseCtx) (s : ParsedDockerStep) (r : Ref)
    (child : ParsedHypiSchemaElement) : Except HamlError ParsedDockerStep :=
  match child with
  | .mapping _ => .ok { s with mappings := s.mappings ++ [r] }
  | el => .error (perr ctx .unsupportedChild "provider"
      ("The step element does not support " ++ el.name ++ " elements inside it."))

/-- ParsedMeta::append_child: pairs only. -/
def ParsedMeta.append_child (ctx : ParseCtx) (m : ParsedMeta) (r : Ref)
    (child : ParsedHypiSchemaElement) : Except HamlError ParsedMeta :=
  match child with
  | .pair _ => .ok { m with key_value_pairs := m.key_value_pairs ++ [r] }
  | el => .error (perr ctx .unsupportedChild "meta"
      ("The meta element does not support " ++ el.name ++ " elements inside it."))

/-- ParsedConstraint::append_child: mappings only (the error names the
schema element as in the source). -/
def ParsedConstraint.append_child (ctx : ParseCtx) (c : ParsedConstraint) (r : Ref)
    (child : ParsedHypiSchemaElement) : Except HamlError ParsedConstraint :=
  match child with
  | .mapping _ => .ok { c with mappings := c.mappings ++ [r] }
  | el => .error (perr ctx .unsupportedChild "schema"
      ("The db schema element does not support " ++ el.name ++ " child elements."))

/-- ParsedDb::append_child: schemas only (the error names the pipeline
element as in the source). -/
def ParsedDb.append_child (ctx : ParseCtx) (d : ParsedDb) (r : Ref)
    (child : ParsedHypiSchemaElement) : Except HamlError ParsedDb :=
  match child with
  | .parsedSchema _ => .ok { d with schemas := d.schemas ++ [r] }
  | el => .error (perr ctx .unsupportedChild "pipeline"
      ("The db element does not support " ++ el.name ++ " child elements."))

/-- The append_child dispatch of ParsedHypiSchemaElement, operating on the
store: reads the child node for the kind-based match, updates the parent in
place.  A schema parent may either adopt a whole tables node as its shared
tables cell or push a table into whatever tables cell it currently points to;
a tables parent pushes tables; step-builder accepts (and drops) any child as
in the source; the remaining leaf kinds reject all children. -/
def nodeAppendChild (ctx : ParseCtx) (store : Store) (parent : Ref) (childRef : Ref) :
    Except HamlError Store :=
  let child := getNode store childRef
  match getNode store parent with
  | .parsedDocument d =>
    match d.append_child ctx childRef child with
    | .ok x => .ok (setNode store parent (.parsedDocument x))
    | .error e2 => .error e2
  | .parsedTables ts =>
    match child with
    | .parsedTable _ => .ok (setNode store parent (.parsedTables (ts ++ [childRef])))
    | el => .error (perr ctx .unsupportedChild "tables"
        ("The tables element does not support child elements of type " ++ el.name ++ "."))
  | .parsedTable t =>
    match t.append_child ctx childRef child with
    | .ok x => .ok (setNode store parent (.parsedTable x))
    | .error e2 => .error e2
  | .column c =>
    match c.append_child ctx childRef child with
    | .ok x => .ok (setNode store parent (.column x))
    | .error e2 => .error e2
  | .apis a =>
    match a.append_child ctx childRef child with
    | .ok x => .ok (setNode store parent (.apis x))
    | .error e2 => .error e2
  | .columnPipeline p =>
    match p.append_child ctx childRef child with
    | .ok x => .ok (setNode store parent (.columnPipeline x))
    | .error e2 => .error e2
  | .columnPipelineArgs _ =>
    .error (perr ctx .unsupportedChild "args"
      ("The args element of a column pipeline does not support " ++ child.name ++
        " elements inside it. In fact, it does not support any children at all"))
  | .columnPipelineWrite _ =>
    .error (perr ctx .unsupportedChild "write"
      ("The write element of a column pipeline does not support " ++ child.name ++
        " elements inside it. In fact, it does not support any children at all"))
  | .columnPipelineRead _ =>
    .error (perr ctx .unknownAttr "read"
      ("The read element of a column pipeline does not support " ++ child.name ++
        " elements inside it. In fact, it does not support any children at all"))
  | .hypi h =>
    match h.append_child ctx childRef child with
    | .ok x => .ok (setNode store parent (.hypi x))
    | .error e2 => .error e2
  | .mapping m =>
    match m.append_child ctx childRef child with
    | .ok x => .ok (setNode store parent (.mapping x))
    | .error e2 => .error e2
  | .apiGlobalOptions g =>
    match g.append_child ctx childRef child with
    | .ok x => .ok (setNode store parent (.apiGlobalOptions x))
    | .error e2 => .error e2
  | .apiCoreApi _ =>
    .error (perr ctx .unsupportedChild "global-options"
      ("The core-api element does not support " ++ child.name ++
        " elements inside it... In fact, it does not support any children at all!"))
  | .apiRest r =>
    match r.append_child ctx childRef child with
    | .ok x => .ok (setNode store parent (.apiRest x))
    | .error e2 => .error e2
  | .apiEndpoint e =>
    match e.append_child ctx childRef child with
    | .ok x => .ok (setNode store parent (.apiEndpoint x))
    | .error e2 => .error e2
  | .dockerStep s =>
    match s.append_child ctx childRef child with
    | .ok x => .ok (setNode store parent (.dockerStep x))
    | .error e2 => .error e2
  | .dockerStepBuilder _ => .ok store
  | .apiEndpointScript _ =>
    .error (perr ctx .unsupportedChild "job"
      ("The script element does not support " ++ child.name ++ " child elements."))
  | .apiEndpointCall c =>
    match c.append_child ctx childRef child with
    | .ok x => .ok (setNode store parent (.apiEndpointCall x))
    | .error e2 => .error e2
  | .pipeline p =>
    match p.append_child ctx childRef child with
    | .ok x => .ok (setNode store parent (.pipeline x))
    | .error e2 => .error e2
  | .apiEndpointResponse rsp =>
    match rsp.append_child ctx childRef child with
    | .ok x => .ok (setNode store parent (.apiEndpointResponse x))
    | .error e2 => .error e2
  | .apiEndpointSql s =>
    match s.append_child ctx childRef child with
    | .ok x => .ok (setNode store parent (.apiEndpointSql x))
    | .error e2 => .error e2
  | .apiEndpointFn f =>
    match f.append_child ctx childRef child with
    | .ok x => .ok (setNode store parent (.apiEndpointFn x))
    | .error e2 => .error e2
  | .apiEndpointWebsocket _ =>
    .error (perr ctx .unsupportedChild "websocket"
      ("The websocket element does not support " ++ child.name ++ " child elements."))
  | .apiGraphQL _ =>
    .error (perr ctx .unsupportedChild "graphql"
      ("The graphql element does not support " ++ child.name ++ " child elements."))
  | .apiJob _ =>
    .error (perr ctx .unsupportedChild "job"
      ("The job element does not support " ++ child.name ++ " child elements."))
  | .env _ =>
    .error (perr ctx .unsupportedChild "pipeline"
      ("The env element does not support " ++ child.name ++ " child elements."))
  | .db d =>
    match d.append_child ctx childRef child with
    | .ok x => .ok (setNode store parent (.db x))
    | .error e2 => .error e2
  | .constraint c =>
    match c.append_child ctx childRef child with
    | .ok x => .ok (setNode store parent (.constraint x))
    | .error e2 => .error e2
  | .parsedSchema s =>
    match child with
    | .parsedTables _ =>
      .ok (setNode store parent (.parsedSchema { s with tables := childRef }))
    | .parsedTable _ =>
      match getNode store s.tables with
      | .parsedTables ts => .ok (setNode store s.tables (.parsedTables (ts ++ [childRef])))
      | _ => .ok store
    | el => .error (perr ctx .unsupportedChild "schema"
        ("The db schema element does not support " ++ el.name ++ " child elements."))
  | .meta m =>
    match m.append_child ctx childRef child with
    | .ok x => .ok (setNode store parent (.meta x))
    | .error e2 => .error e2
  | .pair _ =>
    .error (perr ctx .unsupportedChild "pair"
      ("The pair element does not support " ++ child.name ++ " child elements."))

/-- new_node from src/haml_parser.rs: the element factory, keyed on the local
element name and (for the pipeline name) the parent kind.  A fresh document
also allocates its default meta and apis cells, and a fresh schema allocates
its shared empty tables cell, exactly where the source allocates fresh
NodePtr values. -/
def new_node (store : Store) (parent_name : Option String) (ctx : ParseCtx) (name : String) :
    Except HamlError (Store × ParsedHypiSchemaElement) :=
  match name with
  | "document" =>
    .ok (store ++ [.meta {}, .apis {}],
      .parsedDocument { meta := store.length, apis := store.length + 1 })
  | "tables" => .ok (store, .parsedTables [])
  | "table" => .ok (store, .parsedTable {})
  | "apis" => .ok (store, .apis {})
  | "column" => .ok (store, .column {})
  | "args" => .ok (store, .columnPipelineArgs {})
  | "env" => .ok (store, .env {})
  | "db" => .ok (store, .db {})
  | "schema" => .ok (store ++ [.parsedTables []], .parsedSchema { tables := store.length })
  | "constraint" => .ok (store, .constraint {})
  | "meta" => .ok (store, .meta {})
  | "pair" => .ok (store, .pair {})
  | "write" => .ok (store, .columnPipelineWrite {})
  | "read" => .ok (store, .columnPipelineRead {})
  | "hypi" => .ok (store, .hypi {})
  | "mapping" => .ok (store, .mapping {})
  | "global-options" => .ok (store, .apiGlobalOptions {})
  | "core-api" => .ok (store, .apiCoreApi "")
  | "rest" => .ok (store, .apiRest {})
  | "endpoint" => .ok (store, .apiEndpoint {})
  | "script" => .ok (store, .apiEndpointScript {})
  | "call" => .ok (store, .apiEndpointCall {})
  | "graphql" => .ok (store, .apiGraphQL {})
  | "job" => .ok (store, .apiJob {})
  | "response" => .ok (store, .apiEndpointResponse {})
  | "sql" => .ok (store, .apiEndpointSql {})
  | "fn" => .ok (store, .apiEndpointFn {})
  | "step" => .ok (store, .dockerStep {})
  | "step-builder" => .ok (store, .dockerStepBuilder {})
  | "websocket" => .ok (store, .apiEndpointWebsocket {})
  | "pipeline" =>
    if parent_name = some "column" then .ok (store, .columnPipeline {})
    else .ok (store, .pipeline {})
  | other =>
    .error (perr ctx .unknownElement other ("Unsupported XML node - " ++ other))

/-- The kinds of tokenizer failure surfaced by the event source. -/
inductive XmlErrKind where
  | syntaxErr
  | ioErr
  | utf8Err
  | unexpectedEof
deriving DecidableEq, Repr

/-- The markup events delivered by the external tokenizer, with the
zero-based position the tokenizer reports alongside each event; otherEvent
stands for the event kinds the loop ignores. -/
inductive XEvent where
  | startElement (name : String) (attributes : List (String × String)) (pos : Nat × Nat)
  | characters (content : String) (pos : Nat × Nat)
  | endElement (pos : Nat × Nat)
  | endDocument (pos : Nat × Nat)
  | xmlError (kind : XmlErrKind) (msg : String) (pos : Nat × Nat)
  | otherEvent (pos : Nat × Nat)
deriving DecidableEq, Repr

/-- The file-resolution collaborator: logical file name to the event stream
of that file, or none when the file does not resolve. -/
abbrev Vfs := String → Option (List XEvent)

/-- The mutable state of the tree builder loop: the node store, the root (if
already seen), the open-element stack (innermost first, mirroring the end of
the source Vec), the parallel child_index stack, and the last reported
tokenizer position. -/
structure BuilderState where
  store : Store
  root : Option Ref
  q : List Ref
  child_index : List Nat
  lastPos : Nat × Nat

/-- The attribute loop of the builder: every attribute is applied in document
order through set_attr, raising on the first rejection; the ignored
namespace attributes are skipped. -/
def applyAttrs (ctx : ParseCtx) :
    Store → ParsedHypiSchemaElement → List (String × String) →
    Except HamlError (Store × ParsedHypiSchemaElement)
  | store, node, [] => .ok (store, node)
  | store, node, (an, av) :: rest =>
    if IGNORED_ATTRS.contains an then
      applyAttrs ctx store node rest
    else
      match ParsedHypiSchemaElement.set_attr ctx store node an av with
      | .error e => .error e
      | .ok (store2, node2) => applyAttrs ctx store2 node2 rest

/-- One pass of the ParsedDocument::from_str event loop.  At a start-element
the source pushes child_index.len() onto the child_index stack and stamps
that value on the start Location; the subsequent increment in the source
rebinds a shadowed mutable reference to a fresh temporary and never writes
back through it (the function carries an allow unused_assignments
attribute), so the stack entry keeps the pushed value, which equals the
depth of the element.  The end-element stamps the popped entry on the end
Location, runs validation and pops the stack.  A node is appended to the
previous stack top right after being pushed, exactly as in the source. -/
def runEvents (imp : Store → String → Except HamlError (Store × Ref)) (file_name : String) :
    List XEvent → BuilderState → Except HamlError (Store × Option Ref × (Nat × Nat))
  | [], st => .ok (st.store, st.root, st.lastPos)
  | ev :: rest, st =>
    match ev with
    | .startElement ename attrs pos =>
      let ci := st.child_index.length :: st.child_index
      let ctx : ParseCtx :=
        { file_name := file_name, line_number := pos.1 + 1, column := pos.2 + 1,
          attributes := attrs, imp := imp }
      let parent_name := st.q.head?.map (fun r => (getNode st.store r).name)
      match new_node st.store parent_name ctx ename with
      | .error e => .error e
      | .ok (store1, node0) =>
        let node1 := node0.set_location ctx.line_number ctx.column (ci.headD 0) file_name true
        match applyAttrs ctx store1 node1 attrs with
        | .error e => .error e
        | .ok (store2, node2) =>
          let ref := store2.length
          let store3 := store2 ++ [node2]
          if st.root.isNone then
            runEvents imp file_name rest
              { store := store3, root := some ref, q := [ref], child_index := ci,
                lastPos := pos }
          else
            match st.q.head? with
            | some cur =>
              match nodeAppendChild ctx store3 cur ref with
              | .error e => .error e
              | .ok store4 =>
                runEvents imp file_name rest
                  { store := store4, root := st.root, q := ref :: st.q, child_index := ci,
                    lastPos := pos }
            | none =>
              runEvents imp file_name rest
                { store := store3, root := st.root, q := ref :: st.q, child_index := ci,
                  lastPos := pos }
    | .characters chars pos =>
      match st.q.head? with
      | some cur =>
        let store2 := setNode st.store cur ((getNode st.store cur).set_str_body chars)
        runEvents imp file_name rest { st with store := store2, lastPos := pos }
      | none => runEvents imp file_name rest { st with lastPos := pos }
    | .endElement pos =>
      match st.q with
      | cur :: qrest =>
        let ctx : ParseCtx :=
          { file_name := file_name, line_number := pos.1 + 1, column := pos.2 + 1,
            attributes := [], imp := imp }
        let node2 := (getNode st.store cur).set_location ctx.line_number ctx.column
          (st.child_index.headD 0) file_name false
        let store2 := setNode st.store cur node2
        match node2.validate ctx with
        | .error e => .error e
        | .ok _ =>
          runEvents imp file_name rest
            { store := store2, root := st.root, q := qrest,
              child_index := st.child_index.tail, lastPos := pos }
      | [] => runEvents imp file_name rest { st with lastPos := pos }
    | .endDocument pos => .ok (st.store, st.root, pos)
    | .xmlError kind msg pos =>
      .error (.parseErr
        { file := file_name, line := pos.1, column := pos.2,
          code := match kind with
            | .syntaxErr => .xmlSyntax
            | .ioErr => .xmlIo
            | .utf8Err => .xmlUtf8
            | .unexpectedEof => .xmlEof,
          element := "<>",
          message := match kind with
            | .unexpectedEof => "Unexpected end of HAML"
            | _ => msg })
    | .otherEvent pos => runEvents imp file_name rest { st with lastPos := pos }

/-- ParsedDocument::from_str: fetch the file through the collaborator (a
missing file fails with the missing-import code on the endpoint element),
then drive the event loop; a finished loop without a root is the no-root
error.  The fuel argument bounds the unguarded recursive import nesting (the
source has no cycle protection, an open question of the spec; every theorem
below supplies sufficient fuel), and the store threads the heap of allocated
nodes through recursive imports the way the Rust heap persists across them. -/
def ParsedDocument.from_str (fs : Vfs) : Nat → Store → String →
    Except HamlError (Store × Ref)
  | 0, _, _ => .error (.semantics "import recursion fuel exhausted" .missingImport none)
  | fuel + 1, store, file_name =>
    match fs file_name with
    | none =>
      .error (.parseErr
        { file := file_name, line := 0, column := 0, code := .missingImport,
          element := "endpoint", message := "Imported file not found " ++ file_name })
    | some events =>
      match runEvents (fun st f => ParsedDocument.from_str fs fuel st f) file_name events
          { store := store, root := none, q := [], child_index := [], lastPos := (0, 0) } with
      | .error e => .error e
      | .ok (store2, some root, _) => .ok (store2, root)
      | .ok (_, none, pos) =>
        .error (.parseErr
          { file := file_name, line := pos.1, column := pos.2, code := .noRoot,
            element := "", message := "I mean...you gotta pass something in!" })

/-
  Verification support: projections, fixture file systems and contexts used
  by the theorems below.
-/

/-- The start Location of a node (the default Location for the two variants
that carry none). -/
def nodeStartPos : ParsedHypiSchemaElement → Location
  | .parsedDocument d => d.start_pos
  | .parsedTables _ => {}
  | .parsedTable t => t.start_pos
  | .column c => c.start_pos
  | .apis a => a.start_pos
  | .columnPipeline p => p.start_pos
  | .columnPipelineArgs a => a.start_pos
  | .columnPipelineWrite w => w.start_pos
  | .columnPipelineRead r => r.start_pos
  | .hypi h => h.start_pos
  | .mapping m => m.start_pos
  | .apiGlobalOptions g => g.start_pos
  | .apiCoreApi _ => {}
  | .apiRest r => r.start_pos
  | .apiEndpoint e => e.start_pos
  | .apiEndpointResponse r => r.start_pos
  | .apiEndpointSql s => s.start_pos
  | .dockerStep s => s.start_pos
  | .dockerStepBuilder i => i.start_pos
  | .apiEndpointFn f => f.start_pos
  | .apiEndpointWebsocket w => w.start_pos
  | .apiEndpointScript s => s.start_pos
  | .apiEndpointCall c => c.start_pos
  | .apiGraphQL g => g.start_pos
  | .apiJob j => j.start_pos
  | .pipeline p => p.start_pos
  | .env e => e.start_pos
  | .db d => d.start_pos
  | .constraint c => c.start_pos
  | .parsedSchema s => s.start_pos
  | .meta m => m.start_pos
  | .pair p => p.start_pos

/-- Whether a node is a table. -/
def isTableNode : ParsedHypiSchemaElement → Bool
  | .parsedTable _ => true
  | _ => false

/-- Whether a node is an endpoint. -/
def isEndpointNode : ParsedHypiSchemaElement → Bool
  | .apiEndpoint _ => true
  | _ => false

/-- Whether a node is a pipeline. -/
def isPipelineNode : ParsedHypiSchemaElement → Bool
  | .pipeline _ => true
  | _ => false

/-- A successful parse as an optional store and root reference. -/
def buildResult (fs : Vfs) (fuel : Nat) (file : String) : Option (Store × Ref) :=
  (ParsedDocument.from_str fs fuel [] file).toOption

/-- A file system with no files at all. -/
def emptyFs : Vfs := fun _ => none

/-- A document whose root has two env children, the event stream of
a markup document element containing two empty env elements. -/
def twoSiblingEnvFs : Vfs := fun f =>
  if f = "schema.xml" then
    some [ .startElement "document" [] (0, 9),
           .startElement "env" [("name", "A"), ("value", "1")] (1, 7),
           .endElement (1, 20),
           .startElement "env" [("name", "B"), ("value", "2")] (2, 7),
           .endElement (2, 20),
           .endElement (3, 11),
           .endDocument (3, 11) ]
  else none

/-- main.xml holds a table that imports t2.xml, whose root is a table named
genre starting at zero-based position (4, 20) of t2.xml. -/
def importedTableFs : Vfs := fun f =>
  if f = "main.xml" then
    some [ .startElement "table" [("import", "t2.xml")] (0, 30),
           .endElement (0, 40), .endDocument (0, 41) ]
  else if f = "t2.xml" then
    some [ .startElement "table" [("name", "genre")] (4, 20),
           .endElement (6, 9), .endDocument (6, 10) ]
  else none

/-- emain.xml holds an endpoint that imports e2.xml, whose root is an
endpoint named login starting at zero-based position (4, 20) of e2.xml. -/
def importedEndpointFs : Vfs := fun f =>
  if f = "emain.xml" then
    some [ .startElement "endpoint" [("import", "e2.xml")] (0, 30),
           .endElement (0, 40), .endDocument (0, 41) ]
  else if f = "e2.xml" then
    some [ .startElement "endpoint" [("name", "login")] (4, 20),
           .endElement (6, 9), .endDocument (6, 10) ]
  else none

/-- pmain.xml holds a pipeline that imports p2.xml, whose root is a pipeline
named etl starting at zero-based position (4, 20) of p2.xml. -/
def importedPipelineFs : Vfs := fun f =>
  if f = "pmain.xml" then
    some [ .startElement "pipeline" [("import", "p2.xml")] (0, 30),
           .endElement (0, 40), .endDocument (0, 41) ]
  else if f = "p2.xml" then
    some [ .startElement "pipeline" [("name", "etl")] (4, 20),
           .endElement (6, 9), .endDocument (6, 10) ]
  else none

/-- A resolvable file whose root is an env element: the wrong kind for every
importable element. -/
def envRootFs : Vfs := fun f =>
  if f = "p.xml" then
    some [ .startElement "env" [("name", "A")] (4, 20),
           .endElement (6, 9), .endDocument (6, 10) ]
  else none

/-- A context whose resolver finds no files (its attribute list is the
single import attribute). -/
def noResolveCtx : ParseCtx :=
  { file_name := "schema.xml", line_number := 3, column := 5,
    attributes := [("import", "nope.xml")],
    imp := fun st f => ParsedDocument.from_str emptyFs 2 st f }

/-- A context whose resolver serves envRootFs (its attribute list is the
single import attribute). -/
def envRootCtx : ParseCtx :=
  { file_name := "main.xml", line_number := 1, column := 31,
    attributes := [("import", "p.xml")],
    imp := fun st f => ParsedDocument.from_str envRootFs 2 st f }

/-- A plain context with no attributes, used where the handler under test
reads neither the attribute list nor the resolver. -/
def plainCtx : ParseCtx :=
  { file_name := "schema.xml", line_number := 1, column := 1, attributes := [],
    imp := fun st f => ParsedDocument.from_str emptyFs 2 st f }

/-- A context carrying an import attribute mixed with a second attribute. -/
def mixedAttrCtx : ParseCtx :=
  { file_name := "schema.xml", line_number := 2, column := 3,
    attributes := [("import", "a.xml"), ("name", "x")],
    imp := fun st f => ParsedDocument.from_str emptyFs 2 st f }

/-- A pipeline file whose single step carries an after attribute. -/
def stepDocFs : Vfs := fun f =>
  if f = "pipe.xml" then
    some [
      .startElement "pipeline" [("name", "p")] (0, 9),
      .startElement "step" [("name", "s1"), ("after", "last")] (1, 7),
      .endElement (1, 20),
      .endElement (2, 11),
      .endDocument (2, 11)
    ]
  else none

/-- The pipeline node the builder produces for stepDocFs. -/
def stepDocPipeline : ParsedPipeline :=
  { start_pos := { file_name := "pipe.xml", line := 1, column := 10, child_index := 0 },
    end_pos := { file_name := "pipe.xml", line := 3, column := 12, child_index := 0 },
    name := "p",
    docker_steps := [1] }

/-- The step node the builder produces for stepDocFs: the after attribute
landed in implicit_before_position and implicit_after_position stayed none. -/
def stepDocStep : ParsedDockerStep :=
  { start_pos := { file_name := "pipe.xml", line := 2, column := 8, child_index := 1 },
    end_pos := { file_name := "pipe.xml", line := 2, column := 21, child_index := 1 },
    name := "s1",
    implicit_before_position := some .each }

/-- The store the builder produces for stepDocFs. -/
def stepDocStore : Store :=
  [.pipeline stepDocPipeline, .dockerStep stepDocStep]

/-- The store produced by resolving p.xml of envRootFs: a single env node. -/
def envRootStore : Store :=
  [ .env
      { start_pos := { file_name := "p.xml", line := 5, column := 21, child_index := 0 },
        end_pos := { file_name := "p.xml", line := 7, column := 10, child_index := 0 },
        name := "A", value := "" } ]

/-- The table parsed from t2.xml of importedTableFs. -/
def importedGenreTable : ParsedTable :=
  { start_pos := { file_name := "t2.xml", line := 5, column := 21, child_index := 0 },
    end_pos := { file_name := "t2.xml", line := 7, column := 10, child_index := 0 },
    columns := [], constraints := [], name := "genre", hypi := none }

/-- The pipeline parsed from p2.xml of importedPipelineFs. -/
def importedEtlPipeline : ParsedPipeline :=
  { start_pos := { file_name := "p2.xml", line := 5, column := 21, child_index := 0 },
    end_pos := { file_name := "p2.xml", line := 7, column := 10, child_index := 0 },
    name := "etl" }

/-
  The implicit_after_position invariant: no attribute handler, child append,
  location stamp or body assignment ever writes implicit_after_position, so
  every docker step in any store produced by the builder has None there.
-/

/-- The implicit_after_position carried by a node: the field of a docker
step, and none for every other kind. -/
def afterField : ParsedHypiSchemaElement → Option ImplicitDockerStepPosition
  | .dockerStep s => s.implicit_after_position
  | _ => none

/-- Every node of the store carries no implicit after position. -/
def NoAfter (store : Store) : Prop := ∀ r, afterField (getNode store r) = none

/-- An import resolver that preserves the NoAfter invariant of the store. -/
def ImpPreserves (imp : Store → String → Except HamlError (Store × Ref)) : Prop :=
  ∀ store f store2 ref, NoAfter store → imp store f = .ok (store2, ref) → NoAfter store2

/-- C1 (code_bug evidence): parsing a document with two env children
succeeds, and the builder stamps child_index 1 on both children (each node
receives the length of the per-depth stack at its start, i.e. its depth,
because the increment in the source never writes back), so sibling
child_index values are neither zero-based nor strictly increasing: the first
child of the document carries 1, and the second carries 1 again. -/
theorem child_index_stamps_depth_for_siblings :
    ((buildResult twoSiblingEnvFs 2 "schema.xml").map (fun pr =>
        match getNode pr.1 pr.2 with
        | .parsedDocument d => some d.env
        | _ => none)) = some (some [3, 4]) ∧
    ((buildResult twoSiblingEnvFs 2 "schema.xml").map (fun pr =>
        ((nodeStartPos (getNode pr.1 3)).child_index,
         (nodeStartPos (getNode pr.1 4)).child_index))) = some (1, 1) ∧
    ((buildResult twoSiblingEnvFs 2 "schema.xml").map (fun pr =>
        (nodeStartPos (getNode pr.1 pr.2)).child_index)) = some 0 := by
  refine ⟨by decide, by decide, by decide⟩

/-- C2 (counterexample): a constraint promoted to ForeignKey by on_delete
cascade returns to Unique when the type attribute is later applied with the
value unique, so the Unique to ForeignKey transition is not one-way. -/
theorem constraint_foreign_key_reset_counterexample :
    ParsedConstraint.set_attr plainCtx {} "on_delete" "cascade" =
      .ok { typ := .foreignKey (some .cascade) none } ∧
    ParsedConstraint.set_attr plainCtx { typ := .foreignKey (some .cascade) none }
        "type" "unique" =
      .ok { typ := .unique } := by
  refine ⟨by decide, by decide⟩

/-- C2 (amended): a constraint starts Unique; on_delete and on_update with a
valid action promote it in place to ForeignKey preserving the other recorded
action, and type with value foreign_key promotes a Unique constraint while
leaving an existing ForeignKey unchanged; however the transition is not
one-way: applying type with value unique unconditionally resets the
constraint to Unique, discarding any recorded actions (and an unrecognized
type value is silently ignored). -/
theorem constraint_promotion_amended :
    (∀ ctx : ParseCtx, new_node [] none ctx "constraint" = .ok ([], .constraint {})) ∧
    ({} : ParsedConstraint).typ = .unique ∧
    (∀ (ctx : ParseCtx) (c : ParsedConstraint) (v : String)
        (act : ConstraintViolationAction), cvActionOf v = some act →
      ParsedConstraint.set_attr ctx c "on_delete" v =
        .ok { c with typ := match c.typ with
          | .unique => .foreignKey (some act) none
          | .foreignKey _ ou => .foreignKey (some act) ou }) ∧
    (∀ (ctx : ParseCtx) (c : ParsedConstraint) (v : String)
        (act : ConstraintViolationAction), cvActionOf v = some act →
      ParsedConstraint.set_attr ctx c "on_update" v =
        .ok { c with typ := match c.typ with
          | .unique => .foreignKey none (some act)
          | .foreignKey od _ => .foreignKey od (some act) }) ∧
    (∀ (ctx : ParseCtx) (c : ParsedConstraint),
      ParsedConstraint.set_attr ctx c "type" "foreign_key" =
        .ok { c with typ := match c.typ with
          | .unique => .foreignKey none none
          | .foreignKey od ou => .foreignKey od ou }) ∧
    (∀ (ctx : ParseCtx) (c : ParsedConstraint) (v : String),
      lowerStr v = "unique" →
      ParsedConstraint.set_attr ctx c "type" v = .ok { c with typ := .unique }) := by
  refine ⟨fun ctx => rfl, rfl, ?_, ?_, ?_, ?_⟩
  · intro ctx c v act hact
    simp only [ParsedConstraint.set_attr]
    rw [show lowerStr "on_delete" = "on_delete" from by decide]
    simp only [hact]
    cases htyp : c.typ <;> simp [htyp]
  · intro ctx c v act hact
    simp only [ParsedConstraint.set_attr]
    rw [show lowerStr "on_update" = "on_update" from by decide]
    simp only [hact]
    cases htyp : c.typ <;> simp [htyp]
  · intro ctx c
    simp only [ParsedConstraint.set_attr]
    rw [show lowerStr "type" = "type" from by decide]
    rw [show lowerStr "foreign_key" = "foreign_key" from by decide]
    cases htyp : c.typ <;> simp [htyp]
  · intro ctx c v hv
    simp only [ParsedConstraint.set_attr]
    rw [show lowerStr "type" = "type" from by decide]
    rw [hv]
    rfl

/-- C2 (witness): the amended promotion facts applied at concrete inputs:
cascade on a fresh constraint, restrict on an existing foreign key, and the
reset by type unique. -/
theorem constraint_promotion_amended_witness :
    ParsedConstraint.set_attr plainCtx {} "on_delete" "cascade" =
      .ok { typ := .foreignKey (some .cascade) none } ∧
    ParsedConstraint.set_attr plainCtx
        { typ := .foreignKey (some .cascade) (some .restrict) } "on_update" "cascade" =
      .ok { typ := .foreignKey (some .cascade) (some .cascade) } ∧
    ParsedConstraint.set_attr plainCtx { typ := .foreignKey (some .cascade) none }
        "type" "UNIQUE" =
      .ok { typ := .unique } :=
  ⟨constraint_promotion_amended.2.2.1 plainCtx {} "cascade" .cascade (by decide),
   constraint_promotion_amended.2.2.2.1 plainCtx
     { typ := .foreignKey (some .cascade) (some .restrict) } "cascade" .cascade (by decide),
   constraint_promotion_amended.2.2.2.2.2 plainCtx
     { typ := .foreignKey (some .cascade) none } "UNIQUE" (by decide)⟩

/-- C3 (counterexample): applying the import attribute to a script stores
the path verbatim and succeeds even though the resolver has no files at all
(no file resolution is attempted), while the same context applied to a table
reaches the resolver and fails with the missing-file error: the script kind
does not invoke the tree builder recursively. -/
theorem script_import_stores_path_counterexample :
    ParsedEndpointScript.set_attr noResolveCtx {} "import" "nope.xml" =
      .ok { file := "nope.xml" } ∧
    ParsedTable.set_attr noResolveCtx [] {} "import" "nope.xml" =
      .error (.parseErr
        { file := "nope.xml", line := 0, column := 0, code := .missingImport,
          element := "endpoint", message := "Imported file not found nope.xml" }) := by
  refine ⟨by decide, by decide⟩

/-- C3 (amended): for the table, endpoint and pipeline kinds the import
attribute resolves the named file through the collaborator and fails with the
missing-import code when the parsed root is not of the importing kind, and a
resolver failure propagates; the script kind however performs no resolution
at all and simply stores the path in its file field. -/
theorem import_resolution_amended :
    (∀ (ctx : ParseCtx) (s : ParsedEndpointScript) (v : String),
      ParsedEndpointScript.set_attr ctx s "import" v = .ok { s with file := v }) ∧
    (∀ (ctx : ParseCtx) (store : Store) (t : ParsedTable) (name value : String)
        (store2 : Store) (ref : Ref),
      lowerStr name = "import" → ¬ 1 < ctx.attributes.length →
      ctx.imp store value = .ok (store2, ref) →
      isTableNode (getNode store2 ref) = false →
      ParsedTable.set_attr ctx store t name value =
        .error (perr ctx .missingImport "endpoint" (importNotExpectedMsg value))) ∧
    (∀ (ctx : ParseCtx) (store : Store) (e : ParsedEndpoint) (name value : String)
        (store2 : Store) (ref : Ref),
      lowerStr name = "import" → ¬ 1 < ctx.attributes.length →
      ctx.imp store value = .ok (store2, ref) →
      isEndpointNode (getNode store2 ref) = false →
      ParsedEndpoint.set_attr ctx store e name value =
        .error (perr ctx .missingImport "endpoint" (importNotExpectedMsg value))) ∧
    (∀ (ctx : ParseCtx) (store : Store) (p : ParsedPipeline) (name value : String)
        (store2 : Store) (ref : Ref),
      lowerStr name = "import" → ¬ 1 < ctx.attributes.length →
      ctx.imp store value = .ok (store2, ref) →
      isPipelineNode (getNode store2 ref) = false →
      ParsedPipeline.set_attr ctx store p name value =
        .error (perr ctx .missingImport "pipeline" (importNotExpectedMsg value))) ∧
    (∀ (ctx : ParseCtx) (store : Store) (t : ParsedTable) (name value : String)
        (err : HamlError),
      lowerStr name = "import" → ¬ 1 < ctx.attributes.length →
      ctx.imp store value = .error err →
      ParsedTable.set_attr ctx store t name value = .error err) := by
  refine ⟨?_, ?_, ?_, ?_, ?_⟩
  · intro ctx s v
    simp only [ParsedEndpointScript.set_attr]
    rw [show lowerStr "import" = "import" from by decide]
    rfl
  · intro ctx store t name value store2 ref hname hlen himp hroot
    simp only [ParsedTable.set_attr, hname]
    rw [if_neg (by simp [hlen])]
    simp only [himp]
    cases hn : getNode store2 ref <;> simp_all [isTableNode]
  · intro ctx store e name value store2 ref hname hlen himp hroot
    simp only [ParsedEndpoint.set_attr, hname]
    rw [if_neg (by simp [hlen])]
    simp only [himp]
    cases hn : getNode store2 ref <;> simp_all [isEndpointNode]
  · intro ctx store p name value store2 ref hname hlen himp hroot
    simp only [ParsedPipeline.set_attr, hname]
    rw [if_neg (by simp [hlen])]
    simp only [himp]
    cases hn : getNode store2 ref <;> simp_all [isPipelineNode]
  · intro ctx store t name value err hname hlen himp
    simp only [ParsedTable.set_attr, hname]
    rw [if_neg (by simp [hlen])]
    simp only [himp]

/-- C3 (witness): the amended facts applied at concrete inputs: a script
stores a path without resolution, and a table, an endpoint and a pipeline
importing a file whose root is an env element each fail with the
missing-import code; a table importing through an empty resolver propagates
the missing-file error. -/
theorem import_resolution_amended_witness :
    ParsedEndpointScript.set_attr plainCtx {} "import" "lib.xml" =
      .ok { file := "lib.xml" } ∧
    ParsedTable.set_attr envRootCtx [] {} "import" "p.xml" =
      .error (perr envRootCtx .missingImport "endpoint" (importNotExpectedMsg "p.xml")) ∧
    ParsedEndpoint.set_attr envRootCtx [] {} "import" "p.xml" =
      .error (perr envRootCtx .missingImport "endpoint" (importNotExpectedMsg "p.xml")) ∧
    ParsedPipeline.set_attr envRootCtx [] {} "import" "p.xml" =
      .error (perr envRootCtx .missingImport "pipeline" (importNotExpectedMsg "p.xml")) ∧
    ParsedTable.set_attr noResolveCtx [] {} "import" "nope.xml" =
      .error (.parseErr
        { file := "nope.xml", line := 0, column := 0, code := .missingImport,
          element := "endpoint", message := "Imported file not found nope.xml" }) :=
  ⟨import_resolution_amended.1 plainCtx {} "lib.xml",
   import_resolution_amended.2.1 envRootCtx [] {} "import" "p.xml"
     envRootStore 0
     (by decide) (by decide) (by decide) (by decide),
   import_resolution_amended.2.2.1 envRootCtx [] {} "import" "p.xml"
     envRootStore 0
     (by decide) (by decide) (by decide) (by decide),
   import_resolution_amended.2.2.2.1 envRootCtx [] {} "import" "p.xml"
     envRootStore 0
     (by decide) (by decide) (by decide) (by decide),
   import_resolution_amended.2.2.2.2 noResolveCtx [] {} "import" "nope.xml"
     (.parseErr
       { file := "nope.xml", line := 0, column := 0, code := .missingImport,
         element := "endpoint", message := "Imported file not found nope.xml" })
     (by decide) (by decide) (by decide)⟩

/-- C4 (counterexample): after a successful table import the root node kept
its start Location from the imported file t2.xml, not from the importing
file main.xml where its start tag was stamped before the splice: the start
Location is not preserved by the splice. -/
theorem import_splice_start_location_counterexample :
    ((buildResult importedTableFs 2 "main.xml").map (fun pr =>
        (nodeStartPos (getNode pr.1 pr.2)).file_name)) = some "t2.xml" ∧
    ("t2.xml" : String) ≠ "main.xml" := by
  refine ⟨by decide, by decide⟩

/-- C4 (amended): the import splice replaces the importing node wholesale,
start and end Locations included, with the imported node (leaving a blank
node in the imported cell), for the table, endpoint and pipeline kinds
alike; consequently the spliced node carries the imported file Location as
its start, and only the end Location stamped afterwards at the importing
close tag comes from the importing file, as the three end-to-end runs show. -/
theorem import_splice_full_replacement_amended :
    (∀ (ctx : ParseCtx) (store : Store) (t : ParsedTable) (name value : String)
        (store2 : Store) (ref : Ref) (tbl : ParsedTable),
      lowerStr name = "import" → ¬ 1 < ctx.attributes.length →
      ctx.imp store value = .ok (store2, ref) →
      getNode store2 ref = .parsedTable tbl →
      ParsedTable.set_attr ctx store t name value =
        .ok (setNode store2 ref (.parsedTable {}), tbl)) ∧
    (∀ (ctx : ParseCtx) (store : Store) (e : ParsedEndpoint) (name value : String)
        (store2 : Store) (ref : Ref) (ep : ParsedEndpoint),
      lowerStr name = "import" → ¬ 1 < ctx.attributes.length →
      ctx.imp store value = .ok (store2, ref) →
      getNode store2 ref = .apiEndpoint ep →
      ParsedEndpoint.set_attr ctx store e name value =
        .ok (setNode store2 ref (.apiEndpoint {}), ep)) ∧
    (∀ (ctx : ParseCtx) (store : Store) (p : ParsedPipeline) (name value : String)
        (store2 : Store) (ref : Ref) (pl : ParsedPipeline),
      lowerStr name = "import" → ¬ 1 < ctx.attributes.length →
      ctx.imp store value = .ok (store2, ref) →
      getNode store2 ref = .pipeline pl →
      ParsedPipeline.set_attr ctx store p name value =
        .ok (setNode store2 ref (.pipeline {}), pl)) ∧
    ((buildResult importedTableFs 2 "main.xml").map (fun pr => getNode pr.1 pr.2)) =
      some (.parsedTable
        { start_pos := { file_name := "t2.xml", line := 5, column := 21, child_index := 0 },
          end_pos := { file_name := "main.xml", line := 1, column := 41, child_index := 0 },
          columns := [], constraints := [], name := "genre", hypi := none }) ∧
    ((buildResult importedEndpointFs 2 "emain.xml").map (fun pr => getNode pr.1 pr.2)) =
      some (.apiEndpoint
        { start_pos := { file_name := "e2.xml", line := 5, column := 21, child_index := 0 },
          end_pos := { file_name := "emain.xml", line := 1, column := 41, child_index := 0 },
          name := some "login" }) ∧
    ((buildResult importedPipelineFs 2 "pmain.xml").map (fun pr => getNode pr.1 pr.2)) =
      some (.pipeline
        { start_pos := { file_name := "p2.xml", line := 5, column := 21, child_index := 0 },
          end_pos := { file_name := "pmain.xml", line := 1, column := 41, child_index := 0 },
          name := "etl" }) := by
  refine ⟨?_, ?_, ?_, by decide, by decide, by decide⟩
  · intro ctx store t name value store2 ref tbl hname hlen himp hroot
    simp only [ParsedTable.set_attr, hname]
    rw [if_neg (by simp [hlen])]
    simp only [himp, hroot]
  · intro ctx store e name value store2 ref ep hname hlen himp hroot
    simp only [ParsedEndpoint.set_attr, hname]
    rw [if_neg (by simp [hlen])]
    simp only [himp, hroot]
  · intro ctx store p name value store2 ref pl hname hlen himp hroot
    simp only [ParsedPipeline.set_attr, hname]
    rw [if_neg (by simp [hlen])]
    simp only [himp, hroot]

/-- C4 (witness): the splice equations applied at the concrete import of a
table named genre and a pipeline named etl. -/
theorem import_splice_full_replacement_amended_witness :
    ParsedTable.set_attr
        { file_name := "main.xml", line_number := 1, column := 31,
          attributes := [("import", "t2.xml")],
          imp := fun st f => ParsedDocument.from_str importedTableFs 2 st f }
        [] {} "import" "t2.xml" =
      .ok ([.parsedTable {}], importedGenreTable) ∧
    ParsedPipeline.set_attr
        { file_name := "pmain.xml", line_number := 1, column := 31,
          attributes := [("import", "p2.xml")],
          imp := fun st f => ParsedDocument.from_str importedPipelineFs 2 st f }
        [] {} "import" "p2.xml" =
      .ok ([.pipeline {}], importedEtlPipeline) :=
  ⟨import_splice_full_replacement_amended.1
    { file_name := "main.xml", line_number := 1, column := 31,
      attributes := [("import", "t2.xml")],
      imp := fun st f => ParsedDocument.from_str importedTableFs 2 st f }
    [] {} "import" "t2.xml"
    [.parsedTable importedGenreTable] 0 importedGenreTable
    (by decide) (by decide) (by decide) (by decide),
   import_splice_full_replacement_amended.2.2.1
    { file_name := "pmain.xml", line_number := 1, column := 31,
      attributes := [("import", "p2.xml")],
      imp := fun st f => ParsedDocument.from_str importedPipelineFs 2 st f }
    [] {} "import" "p2.xml"
    [.pipeline importedEtlPipeline] 0 importedEtlPipeline
    (by decide) (by decide) (by decide) (by decide)⟩

/-- C5: when the lowercased attribute name is import and the start-element
carries more than one attribute, the table, endpoint and pipeline handlers
fail with the missing-import code before any file read: the error value
depends only on the context position and attribute list, and swapping in an
arbitrary other resolver leaves the result unchanged. -/
theorem import_exclusive_guard_before_read (ctx : ParseCtx) (store : Store)
    (t : ParsedTable) (e : ParsedEndpoint) (p : ParsedPipeline) (name value : String)
    (hname : lowerStr name = "import") (hlen : 1 < ctx.attributes.length) :
    ParsedTable.set_attr ctx store t name value =
      .error (perr ctx .missingImport "endpoint" (importCombinedMsg value ctx.attributes)) ∧
    ParsedEndpoint.set_attr ctx store e name value =
      .error (perr ctx .missingImport "endpoint" (importCombinedMsg value ctx.attributes)) ∧
    ParsedPipeline.set_attr ctx store p name value =
      .error (perr ctx .missingImport "pipeline" (importCombinedMsg value ctx.attributes)) ∧
    (∀ imp2, ParsedTable.set_attr { ctx with imp := imp2 } store t name value =
      .error (perr ctx .missingImport "endpoint" (importCombinedMsg value ctx.attributes))) ∧
    (∀ imp2, ParsedEndpoint.set_attr { ctx with imp := imp2 } store e name value =
      .error (perr ctx .missingImport "endpoint" (importCombinedMsg value ctx.attributes))) ∧
    (∀ imp2, ParsedPipeline.set_attr { ctx with imp := imp2 } store p name value =
      .error (perr ctx .missingImport "pipeline" (importCombinedMsg value ctx.attributes))) := by
  refine ⟨?_, ?_, ?_, ?_, ?_, ?_⟩
  · simp only [ParsedTable.set_attr, hname]
    rw [if_pos ⟨trivial, hlen⟩]
  · simp only [ParsedEndpoint.set_attr, hname]
    rw [if_pos ⟨trivial, hlen⟩]
  · simp only [ParsedPipeline.set_attr, hname]
    rw [if_pos ⟨trivial, hlen⟩]
  · intro imp2
    simp only [ParsedTable.set_attr, hname]
    rw [if_pos ⟨trivial, hlen⟩]
    rfl
  · intro imp2
    simp only [ParsedEndpoint.set_attr, hname]
    rw [if_pos ⟨trivial, hlen⟩]
    rfl
  · intro imp2
    simp only [ParsedPipeline.set_attr, hname]
    rw [if_pos ⟨trivial, hlen⟩]
    rfl

/-- C5 (witness): the guard applied to a concrete start-element carrying
the import attribute together with a name attribute, with the actual import
attribute spelled Import to exercise the lowercasing. -/
theorem import_exclusive_guard_before_read_witness :
    ParsedTable.set_attr mixedAttrCtx [] {} "Import" "a.xml" =
      .error (perr mixedAttrCtx .missingImport "endpoint"
        (importCombinedMsg "a.xml" mixedAttrCtx.attributes)) :=
  (import_exclusive_guard_before_read mixedAttrCtx [] {} {} {} "Import" "a.xml"
    (by decide) (by decide)).1

/-- C6 (counterexample): the column handler matches attribute names
case-sensitively: NAME on a column fails with the unknown-attribute code
while name succeeds, contradicting the claimed case-insensitive matching for
every node kind. -/
theorem column_attr_case_sensitive_counterexample :
    ParsedColumn.set_attr plainCtx {} "NAME" "acc" =
      .error (perr plainCtx .unknownAttr "column"
        "Column elements do not support an attribute called NAME") ∧
    ParsedColumn.set_attr plainCtx {} "name" "acc" = .ok { name := "acc" } := by
  refine ⟨by decide, by decide⟩

/-- C6 (amended): attribute-name matching is not uniformly case-insensitive.
The db handler lowercases the attribute name before matching, so any
case-variant of a supported name has the same effect as the lowercase
spelling; but the column, args, write, read, step, step-builder and hypi
handlers match the raw attribute name case-sensitively, so an uppercase
variant of a supported name fails with that kind's unknown-attribute error
(and for column, args, write, read and step the lowercase spelling
succeeds where the variant failed). -/
theorem attr_case_matching_amended :
    (∀ (ctx : ParseCtx) (d : ParsedDb) (name lname value : String) (d2 : ParsedDb),
      lowerStr name = lname → lowerStr lname = lname →
      ((ParsedDb.set_attr ctx d name value = .ok d2 →
        ParsedDb.set_attr ctx d lname value = .ok d2) ∧
       (ParsedDb.set_attr ctx d lname value = .ok d2 →
        ParsedDb.set_attr ctx d name value = .ok d2))) ∧
    (∀ (ctx : ParseCtx) (c : ParsedColumn) (value : String),
      ParsedColumn.set_attr ctx c "NAME" value =
        .error (perr ctx .unknownAttr "column"
          "Column elements do not support an attribute called NAME") ∧
      ParsedColumn.set_attr ctx c "name" value = .ok { c with name := value }) ∧
    (∀ (ctx : ParseCtx) (a : ParsedColumnPipelineArgs) (value : String),
      ParsedColumnPipelineArgs.set_attr ctx a "VALUE" value =
        .error (perr ctx .unknownAttr "args"
          "The args element of a column pipeline does not support an attribute called VALUE.") ∧
      ParsedColumnPipelineArgs.set_attr ctx a "value" value = .ok { a with value := value }) ∧
    (∀ (ctx : ParseCtx) (w : ParsedColumnPipelineWrite) (value : String),
      ParsedColumnPipelineWrite.set_attr ctx w "VALUE" value =
        .error (perr ctx .unknownAttr "write"
          "The write element of a column pipeline does not support an attribute called VALUE.") ∧
      ParsedColumnPipelineWrite.set_attr ctx w "value" value = .ok { w with value := value }) ∧
    (∀ (ctx : ParseCtx) (r : ParsedColumnPipelineRead) (value : String),
      ParsedColumnPipelineRead.set_attr ctx r "VALUE" value =
        .error (perr ctx .unknownAttr "read"
          "The read element of a column pipeline does not support an attribute called VALUE.") ∧
      ParsedColumnPipelineRead.set_attr ctx r "value" value = .ok { r with value := value }) ∧
    (∀ (ctx : ParseCtx) (s : ParsedDockerStep) (value : String),
      ParsedDockerStep.set_attr ctx s "NAME" value =
        .error (perr ctx .unknownAttr "provider"
          "The step element of a pipeline does not support an element called NAME.") ∧
      ParsedDockerStep.set_attr ctx s "name" value = .ok { s with name := value }) ∧
    (∀ (ctx : ParseCtx) (i : DockerConnectionInfo) (value : String),
      DockerConnectionInfo.set_attr ctx i "IMAGE" value =
        .error (perr ctx .unknownAttr "provider"
          "The step-builder element of a pipeline does not support an element called IMAGE.")) ∧
    (∀ (ctx : ParseCtx) (h : ParsedHypi) (value : String),
      ParsedHypi.set_attr ctx h "WELL-KNOWN" value =
        .error (perr ctx .unknownAttr "table"
          "The hypi element does not support an attribute called WELL-KNOWN.")) := by
  refine ⟨?_, fun ctx c value => ⟨rfl, rfl⟩, fun ctx a value => ⟨rfl, rfl⟩,
    fun ctx w value => ⟨rfl, rfl⟩, fun ctx r value => ⟨rfl, rfl⟩,
    fun ctx s value => ⟨rfl, rfl⟩, fun ctx i value => rfl, fun ctx h value => rfl⟩
  intro ctx d name lname value d2 h1 h2
  constructor
  · intro h
    unfold ParsedDb.set_attr at h ⊢
    rw [h1] at h
    rw [h2]
    split at h <;> simp_all
  · intro h
    unfold ParsedDb.set_attr at h ⊢
    rw [h2] at h
    rw [h1]
    split at h <;> simp_all

/-- C6 (witness): the db handler treats DB_NAME like db_name at a concrete
value, while the column handler rejects NAME and the args handler rejects
VALUE at concrete values where the lowercase spellings succeed. -/
theorem attr_case_matching_amended_witness :
    ParsedDb.set_attr plainCtx {} "DB_NAME" "mekadb1" = .ok { db_name := "mekadb1" } ∧
    (ParsedColumn.set_attr plainCtx {} "NAME" "acc" =
        .error (perr plainCtx .unknownAttr "column"
          "Column elements do not support an attribute called NAME") ∧
      ParsedColumn.set_attr plainCtx {} "name" "acc" = .ok { name := "acc" }) ∧
    (ParsedColumnPipelineArgs.set_attr plainCtx {} "VALUE" "x" =
        .error (perr plainCtx .unknownAttr "args"
          "The args element of a column pipeline does not support an attribute called VALUE.") ∧
      ParsedColumnPipelineArgs.set_attr plainCtx {} "value" "x" = .ok { value := "x" }) :=
  ⟨((attr_case_matching_amended.1 plainCtx {} "DB_NAME" "db_name" "mekadb1"
      { db_name := "mekadb1" } (by decide) (by decide)).2 (by decide)),
   attr_case_matching_amended.2.1 plainCtx {} "acc",
   attr_case_matching_amended.2.2.1 plainCtx {} "x"⟩

/-- C8: body text is last-write-wins for the overriding handlers (sql and
response) and for the whole dispatch: delivering chunk a and then chunk b
leaves exactly the state of delivering chunk b alone, for every node. -/
theorem body_text_last_write_wins :
    (∀ (s : ParsedEndpointSql) (a b : String),
      (s.set_str_body a).set_str_body b = s.set_str_body b) ∧
    (∀ (r : ParsedEndpointResponse) (a b : String),
      (r.set_str_body a).set_str_body b = r.set_str_body b) ∧
    (∀ (n : ParsedHypiSchemaElement) (a b : String),
      (n.set_str_body a).set_str_body b = n.set_str_body b) := by
  refine ⟨fun s a b => rfl, fun r a b => rfl, fun n a b => ?_⟩
  cases n <;> rfl

/-- C7 (counterexample): at the input "u:p@img" (an at-sign present, no colon
in the remaining segment) parse_docker_image yields the tag some "img",
whereas the claim says the tag is absent when no colon is present: the code
disagrees with the claimed grammar at this concrete input. -/
theorem docker_image_tag_counterexample :
    parse_docker_image "u:p@img" =
      .ok { start_pos := {}, end_pos := {}, username := some "u", password := some "p",
            image := "img", tag := some "img" } ∧
    spec_docker_image_claimed "u:p@img" =
      .ok { start_pos := {}, end_pos := {}, username := some "u", password := some "p",
            image := "img", tag := none } ∧
    parse_docker_image "u:p@img" ≠ spec_docker_image_claimed "u:p@img" := by
  refine ⟨by decide, by decide, by decide⟩

/-- C7 (amended): parse_docker_image agrees everywhere with the amended
grammar, in which the tag in the at-sign branch is the last colon-separated
piece of the remaining segment even when that segment has no colon; and the
literal fixture parses through DockerStepProvider to the stated DockerImage
with image "repo.hypi.ai/rapid-plugin-form", tag "v2", username "user2" and
password "pass2". -/
theorem docker_image_grammar_amended :
    (∀ input, parse_docker_image input = spec_docker_image_amended input) ∧
    DockerStepProvider.from_str "hypi:user2:pass2@repo.hypi.ai/rapid-plugin-form:v2" =
      .ok (.dockerImage
        { start_pos := {}, end_pos := {}, username := some "user2", password := some "pass2",
          image := "repo.hypi.ai/rapid-plugin-form", tag := some "v2" }) := by
  constructor
  · intro input
    unfold parse_docker_image spec_docker_image_amended
    cases h : containsCh input '@' with
    | false => rfl
    | true =>
      cases hl : splitCh input '@' with
      | nil => rfl
      | cons u rest =>
        cases rest with
        | nil =>
          cases hu : splitCh u ':' with
          | nil => simp [hu]
          | cons a t => cases t <;> simp [hu]
        | cons seg t2 =>
          cases hu : splitCh u ':' with
          | nil => simp [hu]
          | cons a t => cases t <;> simp [hu]
  · decide

theorem noAfter_nil : NoAfter [] := fun _ => rfl

theorem noAfter_append_list (store : Store) (l : List ParsedHypiSchemaElement)
    (h : NoAfter store) (hl : ∀ n ∈ l, afterField n = none) : NoAfter (store ++ l) := by
  intro r
  unfold NoAfter getNode at *
  rcases Nat.lt_or_ge r store.length with hlt | hge
  · rw [List.getD_append _ _ _ _ hlt]
    exact h r
  · rw [List.getD_append_right _ _ _ _ hge]
    rcases Nat.lt_or_ge (r - store.length) l.length with h2 | h2
    · rw [List.getD_eq_getElem _ _ h2]
      exact hl _ (List.getElem_mem h2)
    · rw [List.getD_eq_default _ _ h2]
      rfl

theorem noAfter_set (store : Store) (r : Ref) (n : ParsedHypiSchemaElement)
    (h : NoAfter store) (hn : afterField n = none) : NoAfter (setNode store r n) := by
  intro i
  unfold NoAfter getNode setNode at *
  rw [List.getD_eq_getD_get?, List.get?_set]
  by_cases hir : r = i
  · simp only [hir, if_pos rfl]
    cases hg : (store.get? i) with
    | none => rfl
    | some x => simp [hn]
  · rw [if_neg hir, ← List.getD_eq_getD_get?]
    exact h i

theorem afterField_set_location (n : ParsedHypiSchemaElement) (line column ci : Nat)
    (file : String) (b : Bool) :
    afterField (n.set_location line column ci file b) = afterField n := by
  cases n <;> cases b <;> rfl

theorem afterField_set_str_body (n : ParsedHypiSchemaElement) (v : String) :
    afterField (n.set_str_body v) = afterField n := by
  cases n <;> rfl

theorem step_set_attr_after (ctx : ParseCtx) (s : ParsedDockerStep) (name v : String)
    (s2 : ParsedDockerStep) (h : ParsedDockerStep.set_attr ctx s name v = .ok s2) :
    s2.implicit_after_position = s.implicit_after_position := by
  unfold ParsedDockerStep.set_attr at h
  split at h <;> (try split at h) <;> (try cases h) <;> (try rw [← h]) <;> rfl

theorem step_append_child_after (ctx : ParseCtx) (s : ParsedDockerStep) (r : Ref)
    (child : ParsedHypiSchemaElement) (s2 : ParsedDockerStep)
    (h : ParsedDockerStep.append_child ctx s r child = .ok s2) :
    s2.implicit_after_position = s.implicit_after_position := by
  unfold ParsedDockerStep.append_child at h
  split at h <;> (try cases h) <;> (try rw [← h]) <;> rfl

theorem except_map_ok {α β : Type} {f : Except HamlError α} {g : α → β} {y : β}
    (h : f.map g = .ok y) : ∃ x, f = .ok x ∧ y = g x := by
  cases f with
  | ok x => exact ⟨x, rfl, (Except.ok.inj h).symm⟩
  | error e => cases h

theorem noAfter_append_one (store : Store) (n : ParsedHypiSchemaElement)
    (h : NoAfter store) (hn : afterField n = none) : NoAfter (store ++ [n]) := by
  refine noAfter_append_list store [n] h ?_
  intro x hx
  rcases List.mem_singleton.mp hx with rfl
  exact hn

theorem table_set_attr_noAfter (ctx : ParseCtx) (store : Store) (t : ParsedTable)
    (name value : String) (store2 : Store) (t2 : ParsedTable)
    (hctx : ImpPreserves ctx.imp) (hst : NoAfter store)
    (h : ParsedTable.set_attr ctx store t name value = .ok (store2, t2)) :
    NoAfter store2 := by
  simp only [ParsedTable.set_attr] at h
  split at h
  · cases h
  · split at h
    · split at h
      · split at h
        · cases h
          rename_i si ri heq tbl heq2
          exact noAfter_set _ _ _ (hctx store value si ri hst heq) rfl
        · cases h
      · cases h
    · cases h
      exact hst
    · cases h

theorem endpoint_set_attr_noAfter (ctx : ParseCtx) (store : Store) (e : ParsedEndpoint)
    (name value : String) (store2 : Store) (e2 : ParsedEndpoint)
    (hctx : ImpPreserves ctx.imp) (hst : NoAfter store)
    (h : ParsedEndpoint.set_attr ctx store e name value = .ok (store2, e2)) :
    NoAfter store2 := by
  simp only [ParsedEndpoint.set_attr] at h
  split at h
  · cases h
  · split at h
    case _ => cases h; exact hst
    case _ => cases h; exact hst
    case _ => cases h; exact hst
    case _ => cases h; exact hst
    case _ => cases h; exact hst
    case _ => cases h; exact hst
    case _ =>
      split at h
      · cases h; exact hst
      · cases h
    case _ =>
      split at h
      · split at h
        · cases h
          rename_i si ri heq ep heq2
          exact noAfter_set _ _ _ (hctx store value si ri hst heq) rfl
        · cases h
      · cases h
    case _ => cases h

theorem pipeline_set_attr_noAfter (ctx : ParseCtx) (store : Store) (p : ParsedPipeline)
    (name value : String) (store2 : Store) (p2 : ParsedPipeline)
    (hctx : ImpPreserves ctx.imp) (hst : NoAfter store)
    (h : ParsedPipeline.set_attr ctx store p name value = .ok (store2, p2)) :
    NoAfter store2 := by
  simp only [ParsedPipeline.set_attr] at h
  split at h
  · cases h
  · split at h
    case _ =>
      split at h
      · split at h
        · cases h
          rename_i si ri heq pl heq2
          exact noAfter_set _ _ _ (hctx store value si ri hst heq) rfl
        · cases h
      · cases h
    case _ => cases h; exact hst
    case _ => cases h; exact hst
    case _ => cases h; exact hst
    case _ => cases h

theorem node_set_attr_preserves (ctx : ParseCtx) (store : Store)
    (n : ParsedHypiSchemaElement) (name value : String) (store2 : Store)
    (n2 : ParsedHypiSchemaElement) (hctx : ImpPreserves ctx.imp) (hst : NoAfter store)
    (hn : afterField n = none)
    (h : ParsedHypiSchemaElement.set_attr ctx store n name value = .ok (store2, n2)) :
    NoAfter store2 ∧ afterField n2 = none := by
  cases n
  case parsedTable t =>
    simp only [ParsedHypiSchemaElement.set_attr] at h
    cases hta : ParsedTable.set_attr ctx store t name value with
    | error e => rw [hta] at h; cases h
    | ok pr =>
      obtain ⟨s2, t2⟩ := pr
      rw [hta] at h
      cases h
      exact ⟨table_set_attr_noAfter ctx store t name value _ _ hctx hst hta, rfl⟩
  case apiEndpoint e =>
    simp only [ParsedHypiSchemaElement.set_attr] at h
    cases hta : ParsedEndpoint.set_attr ctx store e name value with
    | error er => rw [hta] at h; cases h
    | ok pr =>
      obtain ⟨s2, e2⟩ := pr
      rw [hta] at h
      cases h
      exact ⟨endpoint_set_attr_noAfter ctx store e name value _ _ hctx hst hta, rfl⟩
  case pipeline p =>
    simp only [ParsedHypiSchemaElement.set_attr] at h
    cases hta : ParsedPipeline.set_attr ctx store p name value with
    | error er => rw [hta] at h; cases h
    | ok pr =>
      obtain ⟨s2, p2⟩ := pr
      rw [hta] at h
      cases h
      exact ⟨pipeline_set_attr_noAfter ctx store p name value _ _ hctx hst hta, rfl⟩
  case dockerStep s =>
    simp only [ParsedHypiSchemaElement.set_attr] at h
    split at h
    · cases h
      rename_i x heq
      refine ⟨hst, ?_⟩
      have hx := step_set_attr_after ctx s name value x heq
      simpa [afterField, hx] using hn
    · cases h
  all_goals
    simp only [ParsedHypiSchemaElement.set_attr] at h
  all_goals
    split at h
  all_goals
    cases h
  all_goals
    exact ⟨hst, rfl⟩

theorem applyAttrs_preserves (ctx : ParseCtx) (hctx : ImpPreserves ctx.imp) :
    ∀ (attrs : List (String × String)) (store : Store) (n : ParsedHypiSchemaElement)
      (store2 : Store) (n2 : ParsedHypiSchemaElement), NoAfter store →
      afterField n = none → applyAttrs ctx store n attrs = .ok (store2, n2) →
      NoAfter store2 ∧ afterField n2 = none := by
  intro attrs
  induction attrs with
  | nil =>
    intro store n store2 n2 hst hn h
    unfold applyAttrs at h
    cases h
    exact ⟨hst, hn⟩
  | cons a rest ih =>
    intro store n store2 n2 hst hn h
    obtain ⟨an, av⟩ := a
    unfold applyAttrs at h
    split at h
    · exact ih store n store2 n2 hst hn h
    · cases hsa : ParsedHypiSchemaElement.set_attr ctx store n an av with
      | error e => rw [hsa] at h; cases h
      | ok pr =>
        obtain ⟨sM, nM⟩ := pr
        rw [hsa] at h
        have hp := node_set_attr_preserves ctx store n an av sM nM hctx hst hn hsa
        exact ih sM nM store2 n2 hp.1 hp.2 h

theorem new_node_preserves (store : Store) (pn : Option String) (ctx : ParseCtx)
    (ename : String) (store1 : Store) (n0 : ParsedHypiSchemaElement)
    (hst : NoAfter store) (h : new_node store pn ctx ename = .ok (store1, n0)) :
    NoAfter store1 ∧ afterField n0 = none := by
  unfold new_node at h
  split at h
  all_goals try (cases h; exact ⟨hst, rfl⟩)
  · cases h
    refine ⟨noAfter_append_list _ _ hst ?_, rfl⟩
    intro x hx
    fin_cases hx <;> rfl
  · cases h
    refine ⟨noAfter_append_list _ _ hst ?_, rfl⟩
    intro x hx
    fin_cases hx <;> rfl
  · split at h <;> (cases h; exact ⟨hst, rfl⟩)
  · cases h

theorem append_child_preserves (ctx : ParseCtx) (store : Store) (parent childRef : Ref)
    (store2 : Store) (hst : NoAfter store)
    (h : nodeAppendChild ctx store parent childRef = .ok store2) : NoAfter store2 := by
  simp only [nodeAppendChild] at h
  split at h
  · split at h <;> cases h
    exact noAfter_set _ _ _ hst rfl
  · split at h <;> cases h
    exact noAfter_set _ _ _ hst rfl
  · split at h <;> cases h
    exact noAfter_set _ _ _ hst rfl
  · split at h <;> cases h
    exact noAfter_set _ _ _ hst rfl
  · split at h <;> cases h
    exact noAfter_set _ _ _ hst rfl
  · split at h <;> cases h
    exact noAfter_set _ _ _ hst rfl
  · cases h
  · cases h
  · cases h
  · split at h <;> cases h
    exact noAfter_set _ _ _ hst rfl
  · split at h <;> cases h
    exact noAfter_set _ _ _ hst rfl
  · split at h <;> cases h
    exact noAfter_set _ _ _ hst rfl
  · cases h
  · split at h <;> cases h
    exact noAfter_set _ _ _ hst rfl
  · split at h <;> cases h
    exact noAfter_set _ _ _ hst rfl
  · rename_i s heq
    split at h
    · cases h
      rename_i x heq2
      apply noAfter_set _ _ _ hst
      have hx := step_append_child_after ctx s childRef _ x heq2
      have hs : s.implicit_after_position = none := by
        have h0 := hst parent
        rw [heq] at h0
        simpa [afterField] using h0
      simp [afterField, hx, hs]
    · cases h
  · cases h
    exact hst
  · cases h
  · split at h <;> cases h
    exact noAfter_set _ _ _ hst rfl
  · split at h <;> cases h
    exact noAfter_set _ _ _ hst rfl
  · split at h <;> cases h
    exact noAfter_set _ _ _ hst rfl
  · split at h <;> cases h
    exact noAfter_set _ _ _ hst rfl
  · split at h <;> cases h
    exact noAfter_set _ _ _ hst rfl
  · cases h
  · cases h
  · cases h
  · cases h
  · split at h <;> cases h
    exact noAfter_set _ _ _ hst rfl
  · split at h <;> cases h
    exact noAfter_set _ _ _ hst rfl
  · split at h
    · cases h
      exact noAfter_set _ _ _ hst rfl
    · split at h <;> cases h
      · exact noAfter_set _ _ _ hst rfl
      · exact hst
    · cases h
  · split at h <;> cases h
    exact noAfter_set _ _ _ hst rfl
  · cases h

theorem runEvents_preserves (imp : Store → String → Except HamlError (Store × Ref))
    (himp : ImpPreserves imp) (file_name : String) :
    ∀ (events : List XEvent) (st : BuilderState) (store2 : Store) (root : Option Ref)
      (pos : Nat × Nat), NoAfter st.store →
      runEvents imp file_name events st = .ok (store2, root, pos) → NoAfter store2 := by
  intro events
  induction events with
  | nil =>
    intro st store2 root pos hst h
    unfold runEvents at h
    cases h
    exact hst
  | cons ev rest ih =>
    intro st store2 root pos hst h
    unfold runEvents at h
    cases ev with
    | startElement ename attrs pos0 =>
      dsimp only at h
      split at h
      · cases h
      · rename_i store1 node0 heq1
        have h1 := new_node_preserves st.store _ _ ename store1 node0 hst heq1
        split at h
        · cases h
        · rename_i storeA nodeA heqA
          have h2 : afterField (node0.set_location (pos0.1 + 1) (pos0.2 + 1)
              ((st.child_index.length :: st.child_index).headD 0) file_name true) = none := by
            rw [afterField_set_location]
            exact h1.2
          have hp := applyAttrs_preserves _ himp attrs store1 _ storeA nodeA h1.1 h2 heqA
          have h3 : NoAfter (storeA ++ [nodeA]) := noAfter_append_one _ _ hp.1 hp.2
          split at h
          · exact ih _ _ _ _ h3 h
          · split at h
            · split at h
              · cases h
              · rename_i cur heq2 store4 heq4
                exact ih _ _ _ _ (append_child_preserves _ _ _ _ _ h3 heq4) h
            · exact ih _ _ _ _ h3 h
    | characters chars pos0 =>
      dsimp only at h
      split at h
      · rename_i cur heq
        refine ih _ _ _ _ ?_ h
        apply noAfter_set _ _ _ hst
        rw [afterField_set_str_body]
        exact hst cur
      · refine ih _ _ _ _ ?_ h
        exact hst
    | endElement pos0 =>
      dsimp only at h
      split at h
      · rename_i cur qrest heq
        split at h
        · cases h
        · refine ih _ _ _ _ ?_ h
          apply noAfter_set _ _ _ hst
          rw [afterField_set_location]
          exact hst cur
      · refine ih _ _ _ _ ?_ h
        exact hst
    | endDocument pos0 =>
      cases h
      exact hst
    | xmlError kind msg pos0 =>
      cases h
    | otherEvent pos0 =>
      dsimp only at h
      refine ih _ _ _ _ ?_ h
      exact hst

theorem from_str_noAfter (fs : Vfs) :
    ∀ (fuel : Nat) (store : Store) (file : String) (store2 : Store) (ref : Ref),
      NoAfter store → ParsedDocument.from_str fs fuel store file = .ok (store2, ref) →
      NoAfter store2 := by
  intro fuel
  induction fuel with
  | zero =>
    intro store file store2 ref hst h
    cases h
  | succ fuel ih =>
    intro store file store2 ref hst h
    unfold ParsedDocument.from_str at h
    split at h
    · cases h
    · rename_i events heq
      split at h
      · cases h
      · rename_i storeR rootR posR heq2
        cases h
        exact runEvents_preserves _
          (fun s f s2 r h1 h2 => ih s f s2 r h1 h2) file events _ _ _ _ hst heq2
      · cases h

/-- C9: on a step element the after attribute parses its value and stores the
result into implicit_before_position — the very field the before attribute
writes, overwriting whatever was recorded there; the step attribute handler
never changes implicit_after_position; a fresh step starts with
implicit_after_position none; and every node of a tree successfully built
from an empty store carries implicit_after_position none. -/
theorem after_attribute_behavior :
    (∀ (ctx : ParseCtx) (s : ParsedDockerStep) (v : String)
        (p : ImplicitDockerStepPosition),
      ImplicitDockerStepPosition.from_str v = .ok p →
      ParsedDockerStep.set_attr ctx s "after" v =
        .ok { s with implicit_before_position := some p } ∧
      ParsedDockerStep.set_attr ctx s "before" v =
        .ok { s with implicit_before_position := some p }) ∧
    (∀ (ctx : ParseCtx) (s : ParsedDockerStep) (name v : String)
        (s2 : ParsedDockerStep),
      ParsedDockerStep.set_attr ctx s name v = .ok s2 →
      s2.implicit_after_position = s.implicit_after_position) ∧
    (({} : ParsedDockerStep).implicit_after_position = none) ∧
    (∀ (fs : Vfs) (fuel : Nat) (file : String) (store2 : Store) (ref : Ref),
      ParsedDocument.from_str fs fuel [] file = .ok (store2, ref) →
      ∀ r, afterField (getNode store2 r) = none) := by
  refine ⟨?_, ?_, rfl, ?_⟩
  · intro ctx s v p hp
    constructor <;> simp [ParsedDockerStep.set_attr, hp]
  · intro ctx s name v s2 h
    exact step_set_attr_after ctx s name v s2 h
  · intro fs fuel file store2 ref h
    have hempty : NoAfter ([] : Store) := by
      intro r
      cases r <;> rfl
    exact from_str_noAfter fs fuel [] file store2 ref hempty h

set_option maxRecDepth 4000 in
/-- Witness for after_attribute_behavior: the after attribute with value
"last" on a fresh step lands in implicit_before_position; a name write leaves
implicit_after_position untouched; and the step node of the concrete pipeline
document built from stepDocFs carries implicit_after_position none. -/
theorem after_attribute_behavior_witness :
    (ParsedDockerStep.set_attr plainCtx {} "after" "last" =
        .ok { implicit_before_position := some .each } ∧
      ParsedDockerStep.set_attr plainCtx {} "before" "last" =
        .ok { implicit_before_position := some .each }) ∧
    (({ name := "s1" } : ParsedDockerStep).implicit_after_position =
      ({} : ParsedDockerStep).implicit_after_position) ∧
    afterField (getNode stepDocStore 1) = none :=
  ⟨after_attribute_behavior.1 plainCtx {} "last" .each (by decide),
   after_attribute_behavior.2.1 plainCtx {} "name" "s1" { name := "s1" } (by decide),
   after_attribute_behavior.2.2.2 stepDocFs 5 "pipe.xml" stepDocStore 0 (by decide) 1⟩

/-- C10: the implicit docker step position parser sends "last" to the Each
variant (exactly as it sends "each"), sends "first" to First, fails on every
other input, and therefore never produces the Last variant. -/
theorem implicit_position_last_is_each :
    ImplicitDockerStepPosition.from_str "last" = .ok ImplicitDockerStepPosition.each ∧
    ImplicitDockerStepPosition.from_str "first" = .ok ImplicitDockerStepPosition.first ∧
    ImplicitDockerStepPosition.from_str "each" = .ok ImplicitDockerStepPosition.each ∧
    (∀ s, s ≠ "first" → s ≠ "each" → s ≠ "last" →
      ∃ e, ImplicitDockerStepPosition.from_str s = .error e) ∧
    (∀ s, ImplicitDockerStepPosition.from_str s ≠ .ok ImplicitDockerStepPosition.last) := by
  refine ⟨by decide, by decide, by decide, ?_, ?_⟩
  · intro s h1 h2 h3
    unfold ImplicitDockerStepPosition.from_str
    split
    · exact absurd rfl h1
    · exact absurd rfl h2
    · exact absurd rfl h3
    · exact ⟨_, rfl⟩
  · intro s
    unfold ImplicitDockerStepPosition.from_str
    split <;> simp

/-- C10 (witness): the theorem applied at the concrete input "middle",
discharging the three disequality hypotheses there. -/
theorem implicit_position_last_is_each_witness :
    (∃ e, ImplicitDockerStepPosition.from_str "middle" = .error e) ∧
    ImplicitDockerStepPosition.from_str "middle" ≠ .ok ImplicitDockerStepPosition.last :=
  ⟨implicit_position_last_is_each.2.2.2.1 "middle" (by decide) (by decide) (by decide),
   implicit_position_last_is_each.2.2.2.2 "middle"⟩

end Haml
